import Mathlib

/-!
Verification of the Modbus RTU protocol decoder (`decoders/modbus/pd.py`).

This file gives a shallow embedding of the decoder in Lean 4 and proves or
refutes a list of claims about it.  The embedding follows the Python source
closely:

* `Data` mirrors the `Data` class (the reserved word `end` becomes `stop`).
* `ADU` mirrors the mutable state of `Modbus_ADU` (and its two subclasses,
  distinguished by the `dir` tag).  The Python source contains repeated
  misspelled assignments `self.mimumum_length = ...`; in Python these create a
  separate, never-read attribute, which the embedding models with the separate
  field `mimumum_length`.
* Python exceptions (`No_more_data`, plus the `Exception` raised by
  `calc_crc`) become the `Except PErr` layer of the `PM` state monad; the
  annotations handed to `Decoder.puta` are collected in a writer component.
* Python's negative-index list access is modelled by `pyGetD` (out-of-range
  access, which would raise `IndexError`, yields a default entry; every access
  exercised by the theorems below is in range).
* `str.format` templates are modelled by building the resulting strings with
  the helpers below; a template that is applied to the final byte by
  `put_last_byte` is passed as a function of that byte's value.
-/

namespace ModbusPd

/-- Uppercase hexadecimal rendering of a natural number (Python `"{:X}".format`). -/
def hexU (n : Nat) : String := String.mk ((Nat.toDigits 16 n).map Char.toUpper)

/-- Zero-padded uppercase hexadecimal of width `w` (Python `"{:0wX}".format`). -/
def hexPad (w n : Nat) : String :=
  let s := (Nat.toDigits 16 n).map Char.toUpper
  String.mk (List.replicate (w - s.length) '0' ++ s)

/-- Zero-padded binary of width 8 (Python `"{:08b}".format`). -/
def binPad8 (n : Nat) : String :=
  let s := Nat.toDigits 2 n
  String.mk (List.replicate (8 - s.length) '0' ++ s)

/-- One byte received from the uart decoder (`class Data` in the source; the
field `end` of the source is called `stop` here because `end` is reserved). -/
structure Data where
  start : Int
  stop : Int
  data : Nat
  deriving DecidableEq, Repr, Inhabited

/-- Python list indexing `l[i]`: negative indices count from the end of the
list; out-of-range access is mapped to a default entry (the Python code would
raise `IndexError`, which is unreachable in the situations analysed here). -/
def pyGetD (l : List Data) (i : Int) : Data :=
  let j : Int := if i < 0 then (l.length : Int) + i else i
  if j < 0 then ⟨0, 0, 0⟩ else l.getD j.toNat ⟨0, 0, 0⟩

/-! ## Checksum Engine (`Modbus_ADU.calc_crc`)

The body of the `for i in range(8)` loop of `calc_crc`: shift the accumulator
right once, folding the polynomial constant `0xA001` in when the shifted-out
bit was set. -/

/-- One bit-shift step of the CRC loop (lines `LSB = result & 1;
result = result >> 1; if (LSB): result = result ^ magic_number`). -/
def crcShift (s : Nat) : Nat :=
  let LSB := s &&& 1
  let s' := s >>> 1
  if LSB = 1 then s' ^^^ 0xA001 else s'

/-- Processing of one payload byte (`result = result ^ byte.data` followed by
the 8-fold shift loop). -/
def crcByteStep (s b : Nat) : Nat := crcShift^[8] (s ^^^ b)

/-- The 16-bit CRC of a byte sequence: seed `0xFFFF`, then one `crcByteStep`
per byte, exactly as the loop of `calc_crc` computes it. -/
def crc16 (bytes : List Nat) : Nat := bytes.foldl crcByteStep 0xFFFF

/-- The split of the 16-bit CRC into the two transmitted bytes, low byte
first (`byte1 = result & 0xFF; byte2 = (result & 0xFF00) >> 8`). -/
def crcBytes (result : Nat) : Nat × Nat := (result &&& 0xFF, (result &&& 0xFF00) >>> 8)

/-! ## The ADU state (`class Modbus_ADU` and its two subclasses) -/

/-- Which subclass an ADU instance belongs to: `Modbus_ADU_SC`
(server -> client) or `Modbus_ADU_CS` (client -> server). -/
inductive Dir where
  | sc
  | cs
  deriving DecidableEq, Repr

/-- The mutable state of a `Modbus_ADU` object.  `last_byte_put` is the
high-water mark (initially `-1`).  `mimumum_length` is a *separate* attribute
created by the source's misspelled assignments `self.mimumum_length = ...`;
it is never read anywhere, while `close` reads the correctly spelled
`minimum_length`.  (It is initialised to 0 here; in Python the attribute does
not exist until first assigned, and since it is never read the initial value
is irrelevant.) -/
structure ADU where
  data : List Data
  start : Int
  last_read : Int
  write_channel : Nat
  last_byte_put : Int
  annotation_prefix : String
  minimum_length : Nat
  mimumum_length : Nat
  startNewFrame : Bool
  hasError : Bool
  dir : Dir
  deriving DecidableEq, Repr

/-- `Modbus_ADU.__init__(parent, start, write_channel, annotation_prefix)`. -/
def mkADU (start : Int) (write_channel : Nat) (pre : String) (dir : Dir) : ADU :=
  { data := []
    start := start
    last_read := start
    write_channel := write_channel
    last_byte_put := -1
    annotation_prefix := pre
    minimum_length := 4
    mimumum_length := 0
    startNewFrame := false
    hasError := false
    dir := dir }

/-- An annotation handed to `Decoder.puta`: start sample, end sample,
annotation channel text, message. -/
abbrev Ann := Int × Int × String × String

/-- Python exceptions used by the decoder: `No_more_data` (flow control,
caught by `parse`) and a plain `Exception` (raised by `calc_crc` on an
internal invariant violation; never caught). -/
inductive PErr where
  | noMoreData
  | crash (msg : String)
  deriving DecidableEq, Repr

/-- The effect of one method call on an ADU: an `Except` result (exceptions
propagate), the updated ADU state, and the annotations emitted to the parent
decoder, in order. -/
def PM (α : Type) : Type := ADU → Except PErr α × ADU × List Ann

instance : Monad PM where
  pure x := fun adu => (Except.ok x, adu, [])
  bind m k := fun adu =>
    match m adu with
    | (Except.ok x, a, l) =>
      match k x a with
      | (r, a', l') => (r, a', l ++ l')
    | (Except.error e, a, l) => (Except.error e, a, l)

/-- Read the current ADU state (Python `self`). -/
def getADU : PM ADU := fun adu => (Except.ok adu, adu, [])

/-- Mutate the current ADU state (a Python attribute assignment). -/
def modADU (f : ADU → ADU) : PM Unit := fun adu => (Except.ok (), f adu, [])

/-- `raise No_more_data`. -/
def raiseNMD {α : Type} : PM α := fun adu => (Except.error PErr.noMoreData, adu, [])

/-- `self.minimum_length = n` (the correctly spelled assignments). -/
def setMinimumLength (n : Nat) : PM Unit := modADU fun a => { a with minimum_length := n }

/-- `self.mimumum_length = n`: the source's misspelled assignments, which in
Python create a separate attribute and leave `minimum_length` unchanged. -/
def setMimumumLength (n : Nat) : PM Unit := modADU fun a => { a with mimumum_length := n }

/-- `Modbus_ADU.put_if_needed(byte_to_put, annotation, message)`.  Raises
`No_more_data` if `byte_to_put` has not been read yet; sets `hasError` when
the annotation is `"error"`; emits one annotation spanning bytes
`last_byte_put+1 .. byte_to_put` and raises `No_more_data` when
`byte_to_put` lies beyond the high-water mark. -/
def put_if_needed (byte_to_put : Int) ( annot message : String) : PM Unit := fun adu =>
  if byte_to_put > (adu.data.length : Int) - 1 then
    (Except.error PErr.noMoreData, adu, [])
  else
    let adu1 := if annot = "error" then { adu with hasError := true } else adu
    if byte_to_put > adu1.last_byte_put then
      (Except.error PErr.noMoreData,
       { adu1 with last_byte_put := byte_to_put },
       [((pyGetD adu1.data (adu1.last_byte_put + 1)).start,
         (pyGetD adu1.data byte_to_put).stop,
         ADU.annotation_prefix adu1 ++ annot,
         message)])
    else (Except.ok (), adu1, [])

/-- `Modbus_ADU.put_last_byte(annotation, message, maximum=None)`.  The
`message` parameter models the Python format template: it is applied to the
value of the last byte (`message.format(self.data[-1].data)`). -/
def put_last_byte ( annot : String) (message : Nat → String) (maximum : Option Int) :
    PM Unit := do
  let adu ← getADU
  let last_byte_address : Int := (adu.data.length : Int) - 1
  match maximum with
  | some m =>
    if last_byte_address > m then pure ()
    else put_if_needed last_byte_address annot (message (pyGetD adu.data (-1)).data)
  | none => put_if_needed last_byte_address annot (message (pyGetD adu.data (-1)).data)

/-- `Modbus_ADU.half_word(start)`: big-endian 16-bit value at byte offset
`start`, raising `No_more_data` when the second byte is missing. -/
def half_word (start : Int) : PM Nat := fun adu =>
  if start + 1 > (adu.data.length : Int) - 1 then
    (Except.error PErr.noMoreData, adu, [])
  else
    (Except.ok ((pyGetD adu.data start).data * 0x100 + (pyGetD adu.data (start + 1)).data),
     adu, [])

/-- `Modbus_ADU.calc_crc(last_byte)`: raises a plain `Exception` when
`last_byte < 3`, otherwise computes the CRC of `self.data[:last_byte-1]`
(the source's `for` loops are `crc16`) and splits it into two bytes. -/
def calc_crc (last_byte : Int) : PM (Nat × Nat) := fun adu =>
  if last_byte < 3 then
    (Except.error (PErr.crash "Could not calculate CRC: message too short"), adu, [])
  else
    (Except.ok (crcBytes (crc16 ((adu.data.take (last_byte - 1).toNat).map Data.data))),
     adu, [])

/-- `Modbus_ADU.check_CRC(byte_to_put)`: recompute the CRC and compare it
with the *last two* bytes of the buffer (`self.data[-2]`, `self.data[-1]`). -/
def check_CRC (byte_to_put : Int) : PM Unit := do
  let cb ← calc_crc byte_to_put
  let crc_byte1 := cb.1
  let crc_byte2 := cb.2
  let adu ← getADU
  if (pyGetD adu.data (-2)).data = crc_byte1 ∧ (pyGetD adu.data (-1)).data = crc_byte2 then
    put_if_needed byte_to_put "crc" "CRC correct"
  else
    put_if_needed byte_to_put "error"
      ("CRC should be " ++ toString crc_byte1 ++ " " ++ toString crc_byte2)

/-- `Modbus_ADU.close(message_overflow)`.  Called by the frame assembler when
the next message starts.  Note that in the oversize branch the source passes
`self.annotation_prefix + "error"` as the *annotation* argument of
`put_if_needed`, which prefixes it a second time. -/
def close (message_overflow : Int) (scChannel : String) (adu : ADU) : ADU × List Ann :=
  let d := adu.data
  if (d.length : Int) < (adu.minimum_length : Int) ∧ d.length = 0 then
    -- `return`: sometimes happens with noise, safe to ignore
    (adu, [])
  else
    let (adu1, anns1) :=
      if (d.length : Int) < (adu.minimum_length : Int) then
        ({ adu with hasError := true },
         [((pyGetD d adu.last_byte_put).stop, message_overflow,
           ADU.annotation_prefix adu ++ "error",
           "Message too short or not finished")])
      else (adu, [])
    let anns2 :=
      if adu1.hasError ∧ scChannel = "RX" then
        [((pyGetD d 0).start, (pyGetD d (-1)).stop, "error-indication",
          "Frame contains error")]
      else []
    let (adu2, anns3) :=
      if d.length > 256 then
        -- the surrounding try/except swallows a `No_more_data`
        match put_if_needed ((d.length : Int) - 1) ( ADU.annotation_prefix adu1 ++ "error")
            "Modbus data frames are limited to 256 bytes" adu1 with
        | (_, a, l) => (a, l)
      else (adu1, [])
    (adu2, anns1 ++ anns2 ++ anns3)

/-! ## Function-specific field decoders shared by both directions
(methods of the `Modbus_ADU` base class) -/

/-- `Modbus_ADU.parse_write_single_coil` (function 5). -/
def parse_write_single_coil : PM Unit := do
  setMinimumLength 8
  put_if_needed 1 "function" "Function 5: Write Single Coil"
  let address ← half_word 2
  put_if_needed 3 "address"
    ("Address 0x" ++ hexU address ++ " / " ++ toString (address + 10000))
  let raw_value ← half_word 4
  let value :=
    if raw_value = 0x0000 then "Coil Value OFF"
    else if raw_value = 0xFF00 then "Coil Value ON"
    else "Invalid Coil Value"
  put_if_needed 5 "data" value
  check_CRC 7

/-- `Modbus_ADU.parse_write_single_register` (function 6). -/
def parse_write_single_register : PM Unit := do
  setMinimumLength 8
  put_if_needed 1 "function" "Function 6: Write Single Register"
  let address ← half_word 2
  put_if_needed 3 "address"
    ("Address 0x" ++ hexU address ++ " / " ++ toString (address + 30000))
  let value ← half_word 4
  put_if_needed 5 "data" ("Register Value 0x" ++ hexU value ++ " / " ++ toString value)
  check_CRC 7

/-- The `diag_subfunction` dictionary inside `parse_diagnostics`. -/
def diag_subfunction (n : Nat) : Option String :=
  match n with
  | 0 => some "Return Query data"
  | 1 => some "Restart Communications Option"
  | 2 => some "Return Diagnostics Register"
  | 3 => some "Change ASCII Input Delimiter"
  | 4 => some "Force Listen Only Mode"
  | 10 => some "Clear Counters and Diagnostic Register"
  | 11 => some "Return Bus Message Count"
  | 12 => some "Return Bus Communication Error Count"
  | 13 => some "Return Bus Exception Error Count"
  | 14 => some "Return Slave Message Count"
  | 15 => some "Return Slave No Response Count"
  | 16 => some "Return Slave NAK Count"
  | 17 => some "Return Slave Busy Count"
  | 18 => some "Return Bus Character Overrun Count"
  | 20 => some "Return Overrun Counter and Flag"
  | _ => none

/-- `Modbus_ADU.parse_diagnostics` (function 8). -/
def parse_diagnostics : PM Unit := do
  setMinimumLength 8
  put_if_needed 1 "function" "Function 8: Diagnostics"
  let subfunction ← half_word 2
  let subfunction_name := (diag_subfunction subfunction).getD "Reserved subfunction"
  put_if_needed 3 "data"
    ("Subfunction " ++ toString subfunction ++ ": " ++ subfunction_name)
  let diagnostic_data ← half_word 4
  put_if_needed 5 "data"
    ("Data Field: " ++ toString diagnostic_data ++ " / 0x" ++ hexPad 4 diagnostic_data)
  check_CRC 7

/-- `Modbus_ADU.parse_mask_write_register` (function 22). -/
def parse_mask_write_register : PM Unit := do
  setMinimumLength 10
  put_if_needed 1 "function" "Function 22: Mask Write Register"
  let address ← half_word 2
  put_if_needed 3 "address"
    ("Address 0x" ++ hexU address ++ " / " ++ toString (address + 30001))
  let _ ← half_word 4  -- "To make sure we don't oveflow data"
  let adu ← getADU
  let and_mask_1 := (pyGetD adu.data 4).data
  let and_mask_2 := (pyGetD adu.data 5).data
  put_if_needed 5 "data" ("AND mask: " ++ binPad8 and_mask_1 ++ " " ++ binPad8 and_mask_2)
  let _ ← half_word 6
  let adu ← getADU
  let or_mask_1 := (pyGetD adu.data 6).data
  let or_mask_2 := (pyGetD adu.data 7).data
  put_if_needed 7 "data" ("OR mask: " ++ binPad8 or_mask_1 ++ " " ++ binPad8 or_mask_2)
  check_CRC 9

/-- The `functionname` dictionary of `parse_not_implemented`.  In Python a
lookup with any other key would raise `KeyError`; the dispatchers only route
functions 21, 24 and 43 here, so the default is unreachable. -/
def not_implemented_names (n : Nat) : Option String :=
  match n with
  | 20 => some "Read File Record"
  | 21 => some "Write File Record"
  | 24 => some "Read FIFO Queue"
  | 43 => some "Read Device Identification/Encapsulated Interface Transport"
  | _ => none

/-- `Modbus_ADU.parse_not_implemented`. -/
def parse_not_implemented : PM Unit := do
  let adu ← getADU
  let function := (pyGetD adu.data 1).data
  let functionname := (not_implemented_names function).getD ""
  put_if_needed 1 "function"
    ("Function " ++ toString function ++ ": " ++ functionname ++ " (not supported)")
  put_last_byte "data"
    (fun _ => "This function is not currently supported by the sigrok modbus module") none

/-! ## Server -> Client field decoders (`Modbus_ADU_SC`) -/

/-- The server-id message computed at the start of `Modbus_ADU_SC.parse`.
For an invalid id the source builds the string `"Slave ID {} is invalid"`
*without* calling `.format`, so the placeholder is left in the message. -/
def sc_server_id_message (server_id : Nat) : String :=
  if 1 ≤ server_id ∧ server_id ≤ 247 then "Slave ID: " ++ toString server_id
  else "Slave ID \x7b\x7d is invalid"

/-- `Modbus_ADU_SC.parse_read_bits` (functions 1 and 2).
The first assignment is the source's misspelled `self.mimumum_length = 5`. -/
def parse_read_bits : PM Unit := do
  setMimumumLength 5
  let adu ← getADU
  let function := (pyGetD adu.data 1).data
  if function = 1 then
    put_if_needed 1 "function" "Function 1: Read Coils"
  else
    put_if_needed 1 "function" "Function 2: Read Discrete Inputs"
  let bytecount := (pyGetD adu.data 2).data
  setMinimumLength (5 + bytecount)
  put_if_needed 2 "length" ("Byte count: " ++ toString bytecount)
  put_last_byte "data" (fun b => binPad8 b) (some ((bytecount : Int) + 2))
  check_CRC ((bytecount : Int) + 4)

/-- `Modbus_ADU_SC.parse_read_registers` (functions 3, 4 and 23). -/
def parse_read_registers : PM Unit := do
  setMimumumLength 5
  let adu ← getADU
  let function := (pyGetD adu.data 1).data
  if function = 3 then
    put_if_needed 1 "function" "Function 3: Read Holding Registers"
  else if function = 4 then
    put_if_needed 1 "function" "Function 4: Read Input Registers"
  else if function = 23 then
    put_if_needed 1 "function" "Function 23: Read/Write Multiple Registers"
  else pure ()
  let bytecount := (pyGetD adu.data 2).data
  setMinimumLength (5 + bytecount)
  if bytecount % 2 = 0 then
    put_if_needed 2 "length" ("Byte count: " ++ toString bytecount)
  else
    put_if_needed 2 "error" ("Error: Odd byte count (" ++ toString bytecount ++ ")")
  let adu ← getADU
  if adu.data.length % 2 = 1 then do
    let register_value ← half_word (-2)
    put_last_byte "data"
      (fun _ => "0x" ++ hexPad 4 register_value ++ " / " ++ toString register_value)
      (some ((bytecount : Int) + 2))
  else raiseNMD
  check_CRC ((bytecount : Int) + 4)

/-- `Modbus_ADU_SC.parse_read_exception_status` (function 7). -/
def parse_read_exception_status : PM Unit := do
  setMimumumLength 5
  put_if_needed 1 "function" "Function 7: Read Exception Status"
  let adu ← getADU
  let exception_status := (pyGetD adu.data 2).data
  put_if_needed 2 "data" ("Exception status: " ++ binPad8 exception_status)
  check_CRC 4

/-- `Modbus_ADU_SC.parse_get_comm_event_counter` (function 11). -/
def parse_get_comm_event_counter : PM Unit := do
  setMimumumLength 8
  put_if_needed 1 "function" "Function 11: Get Comm Event Counter"
  let status ← half_word 2
  if status = 0x0000 then
    put_if_needed 3 "data" "Status: not busy"
  else if status = 0xFFFF then
    put_if_needed 3 "data" "Status: busy"
  else
    put_if_needed 3 "error" ("Bad status: 0x" ++ hexPad 4 status)
  let count ← half_word 4
  put_if_needed 5 "data" ("Event Count: " ++ toString count)
  check_CRC 7

/-- `Modbus_ADU_SC.parse_get_comm_event_log` (function 12). -/
def parse_get_comm_event_log : PM Unit := do
  setMimumumLength 11
  put_if_needed 1 "function" "Function 12: Get Comm Event Log"
  let adu ← getADU
  let bytecount := (pyGetD adu.data 2).data
  put_if_needed 2 "length" ("Bytecount: " ++ toString bytecount)
  setMimumumLength (5 + bytecount)
  let status ← half_word 3
  if status = 0x0000 then
    put_if_needed 4 "data" "Status: not busy"
  else if status = 0xFFFF then
    put_if_needed 4 "data" "Status: busy"
  else
    put_if_needed 4 "error" ("Bad status: 0x" ++ hexPad 4 status)
  let event_count ← half_word 5
  put_if_needed 6 "data" ("Event Count: " ++ toString event_count)
  let message_count ← half_word 7
  put_if_needed 8 "data" ("Message Count: " ++ toString message_count)
  let adu ← getADU
  put_last_byte "data" (fun _ => "Event: 0x" ++ hexPad 2 (pyGetD adu.data (-1)).data)
    (some ((bytecount : Int) + 2))
  check_CRC ((bytecount : Int) + 4)

/-- `Modbus_ADU_SC.parse_write_multiple` (functions 15 and 16).  The source's
if/elif on the function code binds `data_unit`, `max_outputs` and
`long_address_offset`; a function other than 15/16 would leave them unbound
(`UnboundLocalError`), which the dispatcher makes unreachable. -/
def parse_write_multiple_SC : PM Unit := do
  setMimumumLength 8
  let adu ← getADU
  let function := (pyGetD adu.data 1).data
  let data_unit := if function = 15 then "Coils" else "Registers"
  let max_outputs := if function = 15 then 0x07B0 else 0x007B
  let long_address_offset := if function = 15 then 10001 else 30001
  put_if_needed 1 "function"
    ("Function " ++ toString function ++ ": Write Multiple " ++ data_unit)
  let starting_address ← half_word 2
  let address_name := long_address_offset + starting_address
  put_if_needed 3 "address"
    ("Start at address 0x" ++ hexU starting_address ++ " / " ++ toString address_name)
  let quantity_of_outputs ← half_word 4
  if quantity_of_outputs ≤ max_outputs then
    put_if_needed 5 "data"
      ("Write " ++ toString quantity_of_outputs ++ " " ++ data_unit)
  else
    put_if_needed 5 "error"
      ("Bad value: " ++ toString quantity_of_outputs ++ " " ++ data_unit ++
       ". Max is " ++ toString max_outputs)
  check_CRC 7

/-- `Modbus_ADU_SC.parse_report_server_id` (function 17). -/
def parse_report_server_id : PM Unit := do
  setMimumumLength 7
  put_if_needed 1 "function" "Function 17: Report Server ID"
  let adu ← getADU
  let bytecount := (pyGetD adu.data 2).data
  put_if_needed 2 "length" ("Data is " ++ toString bytecount ++ " bytes long")
  put_if_needed 3 "data" ("serverID: " ++ toString (pyGetD adu.data 3).data)
  let run_indicator_status := (pyGetD adu.data 4).data
  if run_indicator_status = 0x00 then
    put_if_needed 4 "data" "Run Indicator status: Off"
  else if run_indicator_status = 0xFF then
    put_if_needed 4 "data" "Run Indicator status: On"
  else
    put_if_needed 4 "error"
      ("Bad Run Indicator status: 0x" ++ hexU run_indicator_status)
  let adu ← getADU
  put_last_byte "data"
    (fun _ => "Device specific data: " ++ toString (pyGetD adu.data (-1)).data ++
      ", \x27" ++ String.singleton (Char.ofNat (pyGetD adu.data (-1)).data) ++ "\x27")
    (some (2 + (bytecount : Int)))
  check_CRC (4 + (bytecount : Int))

/-- The `functions` dictionary of `Modbus_ADU_SC.parse_error` (19 entries). -/
def error_functions (n : Nat) : Option String :=
  match n with
  | 1 => some "Read Coils"
  | 2 => some "Read Discrete Inputs"
  | 3 => some "Read Holding Registers"
  | 4 => some "Read Input Registers"
  | 5 => some "Write Single Coil"
  | 6 => some "Write Single Register"
  | 7 => some "Read Exception Status"
  | 8 => some "Diagnostic"
  | 11 => some "Get Com Event Counter"
  | 12 => some "Get Com Event Log"
  | 15 => some "Write Multiple Coils"
  | 16 => some "Write Multiple Registers"
  | 17 => some "Report Slave ID"
  | 20 => some "Read File Record"
  | 21 => some "Write File Record"
  | 22 => some "Mask Write Register"
  | 23 => some "Read/Write Multiple Registers"
  | 24 => some "Read FIFO Queue"
  | 43 => some "Read Device Identification/Encapsulated Interface Transport"
  | _ => none

/-- The `errorcodes` dictionary of `Modbus_ADU_SC.parse_error` (9 entries). -/
def error_codes (n : Nat) : Option String :=
  match n with
  | 1 => some "Illegal Function"
  | 2 => some "Illegal Data Address"
  | 3 => some "Illegal Data Value"
  | 4 => some "Slave Device Failure"
  | 5 => some "Acknowledge"
  | 6 => some "Slave Device Busy"
  | 8 => some "Memory Parity Error"
  | 10 => some "Gateway Path Unavailable"
  | 11 => some "Gateway Target Device failed to respond"
  | _ => none

/-- `Modbus_ADU_SC.parse_error`: exception responses.  The subtraction
`data[1].data - 0x80` is a truncated `Nat` subtraction here; the dispatcher
only routes function codes above `0x80` to this decoder, where it agrees
with Python's integer subtraction. -/
def parse_error : PM Unit := do
  setMimumumLength 5
  let adu ← getADU
  let functioncode := (pyGetD adu.data 1).data - 0x80
  let functionname :=
    toString functioncode ++ ": " ++ (error_functions functioncode).getD "Unknown function"
  put_if_needed 1 "function" ("Error for function " ++ functionname)
  let error := (pyGetD adu.data 2).data
  let errorname := toString error ++ ": " ++ (error_codes error).getD "Unknown"
  put_if_needed 2 "data" ("Error " ++ errorname)
  check_CRC 4

/-! ## Client -> Server field decoders (`Modbus_ADU_CS`) -/

/-- The `functionname` dictionary of `parse_read_data_command` (a lookup
with any other key would raise `KeyError`; unreachable via the dispatcher). -/
def read_data_names (n : Nat) : Option String :=
  match n with
  | 1 => some "Read Coils"
  | 2 => some "Read Discrete Inputs"
  | 3 => some "Read Holding Registers"
  | 4 => some "Read Input Registers"
  | _ => none

/-- `Modbus_ADU_CS.parse_read_data_command` (functions 1-4). -/
def parse_read_data_command : PM Unit := do
  setMinimumLength 8
  let adu ← getADU
  let function := (pyGetD adu.data 1).data
  let functionname := (read_data_names function).getD ""
  put_if_needed 1 "function" ("Function " ++ toString function ++ ": " ++ functionname)
  let starting_address ← half_word 2
  let address_name := 10000 * function + 1 + starting_address
  put_if_needed 3 "address"
    ("Start at address 0x" ++ hexU starting_address ++ " / " ++ toString address_name)
  let units ← half_word 4
  put_if_needed 5 "length" ("Read " ++ toString units ++ " units of data")
  check_CRC 7

/-- The `function_name` dictionary of `parse_single_byte_request`. -/
def single_byte_names (n : Nat) : Option String :=
  match n with
  | 7 => some "Read Exception Status"
  | 11 => some "Get Comm Event Counter"
  | 12 => some "Get Comm Event Log"
  | 17 => some "Report Slave ID"
  | _ => none

/-- `Modbus_ADU_CS.parse_single_byte_request` (functions 7, 11, 12, 17). -/
def parse_single_byte_request : PM Unit := do
  let adu ← getADU
  let function := (pyGetD adu.data 1).data
  let function_name := (single_byte_names function).getD ""
  put_if_needed 1 "function" ("Function " ++ toString function ++ ": " ++ function_name)
  check_CRC 3

/-- `Modbus_ADU_CS.parse_write_multiple` (functions 15 and 16).  Both
assignments to the expected length use the source's misspelled
`self.mimumum_length`.  `proper_bytecount = ceil(quantity * ratio)` uses
float arithmetic in Python with ratio `1/8` (function 15) or `2`
(function 16); for 16-bit quantities this is exact and equals the natural
number computation below. -/
def parse_write_multiple_CS : PM Unit := do
  setMimumumLength 9
  let adu ← getADU
  let function := (pyGetD adu.data 1).data
  let data_unit := if function = 15 then "Coils" else "Registers"
  let max_outputs := if function = 15 then 0x07B0 else 0x007B
  let long_address_offset := if function = 15 then 10001 else 30001
  put_if_needed 1 "function"
    ("Function " ++ toString function ++ ": Write Multiple " ++ data_unit)
  let starting_address ← half_word 2
  let address_name := long_address_offset + starting_address
  put_if_needed 3 "address"
    ("Start at address 0x" ++ hexU starting_address ++ " / " ++ toString address_name)
  let quantity_of_outputs ← half_word 4
  if quantity_of_outputs ≤ max_outputs then
    put_if_needed 5 "length"
      ("Write " ++ toString quantity_of_outputs ++ " " ++ data_unit)
  else
    put_if_needed 5 "error"
      ("Bad value: " ++ toString quantity_of_outputs ++ " " ++ data_unit ++
       ". Max is " ++ toString max_outputs)
  let proper_bytecount :=
    if function = 15 then (quantity_of_outputs + 7) / 8 else quantity_of_outputs * 2
  let adu ← getADU
  let bytecount := (pyGetD adu.data 6).data
  if bytecount = proper_bytecount then
    put_if_needed 6 "length" ("Byte count: " ++ toString bytecount)
  else
    put_if_needed 6 "error"
      ("Bad byte count, is " ++ toString bytecount ++ ", should be " ++
       toString proper_bytecount)
  setMimumumLength (bytecount + 9)
  put_last_byte "data" (fun b => "Value 0x" ++ hexU b) (some (6 + (bytecount : Int)))
  check_CRC ((bytecount : Int) + 8)

/-- `Modbus_ADU_CS.parse_read_file_record` (function 20).  Note: this decoder
is *dead code* — no dispatcher branch ever calls it (see `parse_CS_body`). -/
def parse_read_file_record : PM Unit := do
  put_if_needed 1 "function" "Function 20: Read file records"
  let adu ← getADU
  let bytecount := (pyGetD adu.data 2).data
  setMinimumLength (5 + bytecount)
  if 0x07 ≤ bytecount ∧ bytecount ≤ 0xF5 then
    put_if_needed 2 "length" ("Request is " ++ toString bytecount ++ " bytes long")
  else
    put_if_needed 2 "error"
      ("Request claims to be " ++ toString bytecount ++
       " bytes long, legal values are between 7 and 247")
  let current_byte : Int := (adu.data.length : Int) - 1
  if current_byte ≤ (bytecount : Int) + 2 then
    let step := (current_byte - 3) % 7
    if step = 0 then
      if (pyGetD adu.data current_byte).data = 6 then
        put_if_needed current_byte "data" "Start sub-request"
      else
        put_if_needed current_byte "error" "First byte of subrequest should be 0x06"
    else if step = 1 then raiseNMD
    else if step = 2 then do
      let file_number ← half_word (current_byte - 1)
      put_if_needed current_byte "data" ("Read File number " ++ toString file_number)
    else if step = 3 then raiseNMD
    else if step = 4 then do
      let record_number ← half_word (current_byte - 1)
      put_if_needed current_byte "address"
        ("Read from record number " ++ toString record_number)
    else if step = 5 then raiseNMD
    else if step = 6 then do
      let records_to_read ← half_word (current_byte - 1)
      put_if_needed current_byte "length"
        ("Read " ++ toString records_to_read ++ " records")
    else pure ()
  else pure ()
  check_CRC (4 + (bytecount : Int))

/-- `Modbus_ADU_CS.parse_read_write_registers` (function 23).  The source
computes `address_name` once from the *read* starting address and reuses it,
unchanged, in the *write* address annotation. -/
def parse_read_write_registers : PM Unit := do
  setMinimumLength 13
  put_if_needed 1 "function" "Function 23: Read/Write Multiple Registers"
  let starting_address ← half_word 2
  let address_name := 30001 + starting_address
  put_if_needed 3 "address"
    ("Read starting at address 0x" ++ hexU starting_address ++ " / " ++
     toString address_name)
  let units ← half_word 4
  put_if_needed 5 "length" ("Read " ++ toString units ++ " units of data")
  let starting_address2 ← half_word 6
  put_if_needed 7 "address"
    ("Write starting at address 0x" ++ hexU starting_address2 ++ " / " ++
     toString address_name)
  let quantity_of_outputs ← half_word 8
  put_if_needed 9 "length" ("Write " ++ toString quantity_of_outputs ++ " registers")
  let proper_bytecount := quantity_of_outputs * 2
  let adu ← getADU
  let bytecount := (pyGetD adu.data 10).data
  if bytecount = proper_bytecount then
    put_if_needed 10 "length" ("Byte count: " ++ toString bytecount)
  else
    put_if_needed 10 "error"
      ("Bad byte count, is " ++ toString bytecount ++ ", should be " ++
       toString proper_bytecount)
  setMimumumLength (bytecount + 13)
  put_last_byte "data" (fun b => "Data, value 0x" ++ hexPad 2 b) (some (10 + (bytecount : Int)))
  check_CRC ((bytecount : Int) + 12)

/-! ## The two dispatchers (`Modbus_ADU_SC.parse`, `Modbus_ADU_CS.parse`) -/

/-- Body of `Modbus_ADU_SC.parse` (inside its try/except).  The membership
test written `function in {21, 21, 24, 43}` in the source (21 twice, 20
absent) is kept literally. -/
def parse_SC_body : PM Unit := do
  let adu ← getADU
  let server_id := (pyGetD adu.data 0).data
  put_if_needed 0 "server-id" (sc_server_id_message server_id)
  let function := (pyGetD adu.data 1).data
  if function = 1 ∨ function = 2 then parse_read_bits
  else if function = 3 ∨ function = 4 ∨ function = 23 then parse_read_registers
  else if function = 5 then parse_write_single_coil
  else if function = 6 then parse_write_single_register
  else if function = 7 then parse_read_exception_status
  else if function = 8 then parse_diagnostics
  else if function = 11 then parse_get_comm_event_counter
  else if function = 12 then parse_get_comm_event_log
  else if function = 15 ∨ function = 16 then parse_write_multiple_SC
  else if function = 17 then parse_report_server_id
  else if function = 22 then parse_mask_write_register
  else if function = 21 ∨ function = 21 ∨ function = 24 ∨ function = 43 then
    parse_not_implemented
  else if function > 0x80 then parse_error
  else do
    put_if_needed 1 "error" ("Unknown function: " ++ toString function)
    put_last_byte "error" (fun _ => "Unknown function") none
  put_last_byte "error" (fun _ => "Message too long") none

/-- Body of `Modbus_ADU_CS.parse` (inside its try/except).  The source mixes
`if` and `elif` between the dispatch groups; the grouping below reproduces it
exactly (groups 1-3 are independent `if`s, group 4 is `if/elif`, group 5 is
the `if/elif/.../else` chain whose `else` reports an unknown function). -/
def parse_CS_body : PM Unit := do
  let adu ← getADU
  let server_id := (pyGetD adu.data 0).data
  let message :=
    if server_id = 0 then "Broadcast message"
    else if 1 ≤ server_id ∧ server_id ≤ 247 then "Slave ID: " ++ toString server_id
    else if 248 ≤ server_id ∧ server_id ≤ 255 then
      "Slave ID: " ++ toString server_id ++ " (reserved address)"
    else ""
  put_if_needed 0 "server-id" message
  let function := (pyGetD adu.data 1).data
  if function ≥ 1 ∧ function ≤ 4 then parse_read_data_command else pure ()
  if function = 5 then parse_write_single_coil else pure ()
  if function = 6 then parse_write_single_register else pure ()
  if function = 7 ∨ function = 11 ∨ function = 12 ∨ function = 17 then
    parse_single_byte_request
  else if function = 8 then parse_diagnostics
  else pure ()
  if function = 15 ∨ function = 16 then parse_write_multiple_CS
  else if function = 22 then parse_mask_write_register
  else if function = 23 then parse_read_write_registers
  else if function = 21 ∨ function = 21 ∨ function = 24 ∨ function = 43 then
    parse_not_implemented
  else do
    put_if_needed 1 "error" ("Unknown function: " ++ toString function)
    put_last_byte "error" (fun _ => "Unknown function") none
  put_last_byte "error" (fun _ => "Message too long") none

/-- The try/except used as flow control around the dispatcher bodies:
`No_more_data` is caught and ignored, anything else propagates. -/
def tryNMD (m : PM Unit) : PM Unit := fun adu =>
  match m adu with
  | (Except.error PErr.noMoreData, a, l) => (Except.ok (), a, l)
  | r => r

/-- `self.parse()`: the subclass (tracked by `dir`) selects the dispatcher. -/
def ADU.parse : PM Unit := fun adu =>
  match adu.dir with
  | Dir.sc => tryNMD parse_SC_body adu
  | Dir.cs => tryNMD parse_CS_body adu

/-- One event as passed by the uart decoder: packet type, channel and (for
`"DATA"` packets) the byte value `pdata[0]`. -/
structure UEvent where
  ptype : String
  rxtx : Nat
  pdata0 : Nat
  deriving DecidableEq, Repr

/-- `Modbus_ADU.add_data(start, end, data)`: record the end time, and for a
`"DATA"` packet append the byte and run the parser. -/
def add_data (start stop : Int) (ev : UEvent) (adu : ADU) :
    Except PErr Unit × ADU × List Ann :=
  let adu := { adu with last_read := stop }
  if ev.ptype = "DATA" then
    ADU.parse { adu with data := adu.data ++ [⟨start, stop, ev.pdata0⟩] }
  else (Except.ok (), adu, [])

/-! ## The frame assembler (`class Decoder`) -/

def RX : Nat := 0
def TX : Nat := 1

/-- The decoder state: the two ADU slots, the learned bit length, and the
`ScChannel` option (`"RX"` or `"TX"`). -/
structure DecSt where
  ADUSc : Option ADU
  ADUCs : Option ADU
  bitlength : Option Int
  ScChannel : String
  deriving DecidableEq, Repr

/-- `Decoder.__init__`. -/
def mkDecSt (scChannel : String) : DecSt :=
  { ADUSc := none, ADUCs := none, bitlength := none, ScChannel := scChannel }

/-- Store the ADU for a direction (`self.ADUSc = ...` / `self.ADUCs = ...`). -/
def setDirADU (st : DecSt) (direction : Dir) (adu : ADU) : DecSt :=
  match direction with
  | Dir.sc => { st with ADUSc := some adu }
  | Dir.cs => { st with ADUCs := some adu }

/-- Read the ADU slot for a direction. -/
def getDirADU (st : DecSt) (direction : Dir) : Option ADU :=
  match direction with
  | Dir.sc => st.ADUSc
  | Dir.cs => st.ADUCs

/-- `Decoder.decode_ADU(ss, es, data, direction)`.  The recursive
re-dispatch after closing a stale ADU is modelled with explicit fuel; fuel 0
(which simply drops the event) is unreachable whenever the learned bit
length is non-negative, because the freshly created ADU always accepts the
byte (`ss - ss ≤ bitlength * 28`). -/
def decode_ADU : Nat → Int → Int → UEvent → Dir → DecSt →
    Except PErr Unit × DecSt × List Ann
  | 0, _, _, _, _, st => (Except.ok (), st, [])
  | fuel + 1, ss, es, ev, direction, st0 =>
    -- learn how long a bit lasts from (probably) the startbit
    let st :=
      if st0.bitlength = none ∧ (ev.ptype = "STARTBIT" ∨ ev.ptype = "STOPBIT") then
        { st0 with bitlength := some (es - ss) }
      else st0
    match st.bitlength with
    | none => (Except.ok (), st, [])  -- can't start decoding yet: event dropped
    | some bitlength =>
      -- select the ADU, create it if needed
      let ADU0 :=
        match getDirADU st direction with
        | none => mkADU ss TX (match direction with | Dir.sc => "Sc-" | Dir.cs => "Cs-") direction
        | some a =>
          if a.startNewFrame then
            mkADU ss TX (match direction with | Dir.sc => "Sc-" | Dir.cs => "Cs-") direction
          else a
      let st1 := setDirADU st direction ADU0
      if ss - ADU0.last_read ≤ bitlength * 28 then
        match add_data ss es ev ADU0 with
        | (r, adu1, anns) => (r, setDirADU st1 direction adu1, anns)
      else
        -- it's been too long since the last part of the ADU
        let (ADUc, annsC) :=
          if ADU0.data.length > 0 then
            close ((pyGetD ADU0.data (-1)).stop + bitlength * 3) st1.ScChannel ADU0
          else (ADU0, [])
        let st2 := setDirADU st1 direction { ADUc with startNewFrame := true }
        match decode_ADU fuel ss es ev direction st2 with
        | (r, st', anns') => (r, st', annsC ++ anns')

/-- `Decoder.decode(ss, es, data)`: route the event to the client -> server
ADU and, depending on the `ScChannel` option, to the server -> client ADU. -/
def decode (fuel : Nat) (ss es : Int) (ev : UEvent) (st : DecSt) :
    Except PErr Unit × DecSt × List Ann :=
  match (if ev.rxtx = TX then decode_ADU fuel ss es ev Dir.cs st
         else (Except.ok (), st, [])) with
  | (Except.error e, st1, anns1) => (Except.error e, st1, anns1)
  | (Except.ok _, st1, anns1) =>
    match (if ev.rxtx = TX ∧ st1.ScChannel = "TX" then decode_ADU fuel ss es ev Dir.sc st1
           else (Except.ok (), st1, [])) with
    | (Except.error e, st2, anns2) => (Except.error e, st2, anns1 ++ anns2)
    | (Except.ok _, st2, anns2) =>
      match (if ev.rxtx = RX ∧ st2.ScChannel = "RX" then decode_ADU fuel ss es ev Dir.sc st2
             else (Except.ok (), st2, [])) with
      | (r, st3, anns3) => (r, st3, anns1 ++ anns2 ++ anns3)

/-! ## Specification-side definitions

These do not model source code; they are the vocabulary needed to *state*
the claims: a driver that feeds a list of data bytes to one ADU (as the
frame assembler would), and index-interval bookkeeping for annotation
coverage. -/

/-- Feed a list of timed byte values to an ADU, one `add_data` call each,
collecting all annotations in order. -/
def runBytes (bytes : List (Int × Int × Nat)) (adu : ADU) : ADU × List Ann :=
  bytes.foldl
    (fun acc e =>
      match add_data e.1 e.2.1 ⟨"DATA", 0, e.2.2⟩ acc.1 with
      | (_, a, l) => (a, acc.2 ++ l))
    (adu, [])

/-- Apply a list of `put_if_needed` calls (index, annotation, message) in
order, collecting all annotations; exceptions are ignored between calls,
as `parse` would be re-entered. -/
def applyPIF : List (Int × String × String) → ADU → ADU × List Ann
  | [], adu => (adu, [])
  | c :: rest, adu =>
    match put_if_needed c.1 c.2.1 c.2.2 adu with
    | (_, a, l) =>
      match applyPIF rest a with
      | (a', l') => (a', l ++ l')

/-- The buffer-index intervals covered by the annotations that a list of
`put_if_needed` calls emits: each time a call emits, it covers
`last_byte_put + 1 .. byte_to_put`. -/
def coverage : List (Int × String × String) → ADU → List (Int × Int)
  | [], _ => []
  | c :: rest, adu =>
    match put_if_needed c.1 c.2.1 c.2.2 adu with
    | (_, a, l) =>
      if l.isEmpty then coverage rest a
      else (adu.last_byte_put + 1, c.1) :: coverage rest a

/-- `ChainedB h ivs`: the intervals `ivs` are non-empty, consecutive and
start right after `h` — hence pairwise disjoint and contiguous. -/
def ChainedB : Int → List (Int × Int) → Bool
  | _, [] => true
  | h, (s, e) :: rest => decide (s = h + 1) && decide (s ≤ e) && ChainedB e rest

/-! # Theorems

## Evaluation lemmas for the `PM` monad -/

@[simp] theorem bind_apply {α β : Type} (m : PM α) (k : α → PM β) (adu : ADU) :
    (m >>= k) adu =
      match m adu with
      | (Except.ok x, a, l) =>
        match k x a with
        | (r, a', l') => (r, a', l ++ l')
      | (Except.error e, a, l) => (Except.error e, a, l) := rfl

@[simp] theorem pure_apply {α : Type} (x : α) (adu : ADU) :
    (pure x : PM α) adu = (Except.ok x, adu, []) := rfl

@[simp] theorem getADU_apply (adu : ADU) : getADU adu = (Except.ok adu, adu, []) := rfl

@[simp] theorem modADU_apply (f : ADU → ADU) (adu : ADU) :
    modADU f adu = (Except.ok (), f adu, []) := rfl

@[simp] theorem raiseNMD_apply {α : Type} (adu : ADU) :
    (raiseNMD : PM α) adu = (Except.error PErr.noMoreData, adu, []) := rfl

/-! ## CRC facts

The CRC state stays below `2^16`, every update step is injective in the
state, and processing two byte lists that differ in one byte from the same
state yields different results.  This is what makes single-bit errors
detectable. -/

theorem crcShift_lt {s : Nat} (h : s < 2 ^ 16) : crcShift s < 2 ^ 16 := by
  unfold crcShift
  simp only [Nat.shiftRight_eq_div_pow, pow_one]
  split
  · exact Nat.xor_lt_two_pow (by omega) (by norm_num)
  · omega

theorem xor_right_cancel {a b c : Nat} (h : a ^^^ c = b ^^^ c) : a = b := by
  have h2 : a ^^^ c ^^^ c = b ^^^ c ^^^ c := by rw [h]
  simpa [Nat.xor_assoc] using h2

theorem xor_left_cancel {a b c : Nat} (h : c ^^^ a = c ^^^ b) : a = b := by
  have h2 : c ^^^ (c ^^^ a) = c ^^^ (c ^^^ b) := by rw [h]
  simpa [← Nat.xor_assoc] using h2

theorem testBit15_xor_magic {x : Nat} (hx : x < 2 ^ 15) :
    (x ^^^ 0xA001).testBit 15 = true := by
  rw [Nat.testBit_xor, Nat.testBit_lt_two_pow hx]
  decide

theorem crcShift_inj {s t : Nat} (hs : s < 2 ^ 16) (ht : t < 2 ^ 16)
    (h : crcShift s = crcShift t) : s = t := by
  unfold crcShift at h
  simp only [Nat.shiftRight_eq_div_pow, pow_one, Nat.and_one_is_mod] at h
  have hs2 : s / 2 < 2 ^ 15 := by omega
  have ht2 : t / 2 < 2 ^ 15 := by omega
  rcases Nat.mod_two_eq_zero_or_one s with hsp | hsp <;>
    rcases Nat.mod_two_eq_zero_or_one t with htp | htp <;>
      rw [hsp, htp] at h <;> norm_num at h
  · omega
  · have h15 := testBit15_xor_magic ht2
    rw [← h, Nat.testBit_lt_two_pow hs2] at h15
    exact absurd h15 (by simp)
  · have h15 := testBit15_xor_magic hs2
    rw [h, Nat.testBit_lt_two_pow ht2] at h15
    exact absurd h15 (by simp)
  · omega

theorem crcShift_iter_lt (n : Nat) {s : Nat} (h : s < 2 ^ 16) :
    crcShift^[n] s < 2 ^ 16 := by
  induction n generalizing s with
  | zero => simpa using h
  | succ n ih =>
    rw [Function.iterate_succ_apply]
    exact ih (crcShift_lt h)

theorem crcShift_iter_inj (n : Nat) {s t : Nat} (hs : s < 2 ^ 16) (ht : t < 2 ^ 16)
    (h : crcShift^[n] s = crcShift^[n] t) : s = t := by
  induction n generalizing s t with
  | zero => simpa using h
  | succ n ih =>
    rw [Function.iterate_succ_apply, Function.iterate_succ_apply] at h
    exact crcShift_inj hs ht (ih (crcShift_lt hs) (crcShift_lt ht) h)

theorem crcByteStep_lt {s b : Nat} (hs : s < 2 ^ 16) (hb : b < 2 ^ 16) :
    crcByteStep s b < 2 ^ 16 :=
  crcShift_iter_lt 8 (Nat.xor_lt_two_pow hs hb)

theorem crcByteStep_inj {s t b : Nat} (hs : s < 2 ^ 16) (ht : t < 2 ^ 16)
    (hb : b < 2 ^ 16) (h : crcByteStep s b = crcByteStep t b) : s = t :=
  xor_right_cancel
    (crcShift_iter_inj 8 (Nat.xor_lt_two_pow hs hb) (Nat.xor_lt_two_pow ht hb) h)

theorem crcByteStep_byte_inj {s b b' : Nat} (hs : s < 2 ^ 16) (hb : b < 2 ^ 16)
    (hb' : b' < 2 ^ 16) (h : crcByteStep s b = crcByteStep s b') : b = b' :=
  xor_left_cancel
    (crcShift_iter_inj 8 (Nat.xor_lt_two_pow hs hb) (Nat.xor_lt_two_pow hs hb') h)

theorem foldl_crcByteStep_lt (l : List Nat) (hl : ∀ b ∈ l, b < 2 ^ 16) {s : Nat}
    (hs : s < 2 ^ 16) : l.foldl crcByteStep s < 2 ^ 16 := by
  induction l generalizing s with
  | nil => simpa using hs
  | cons b rest ih =>
    rw [List.foldl_cons]
    exact ih (fun x hx => hl x (List.mem_cons_of_mem _ hx))
      (crcByteStep_lt hs (hl b (List.mem_cons_self _ _)))

theorem foldl_crcByteStep_inj (l : List Nat) (hl : ∀ b ∈ l, b < 2 ^ 16) {s t : Nat}
    (hs : s < 2 ^ 16) (ht : t < 2 ^ 16) (hne : s ≠ t) :
    l.foldl crcByteStep s ≠ l.foldl crcByteStep t := by
  induction l generalizing s t with
  | nil => simpa using hne
  | cons b rest ih =>
    rw [List.foldl_cons, List.foldl_cons]
    have hb := hl b (List.mem_cons_self _ _)
    exact ih (fun x hx => hl x (List.mem_cons_of_mem _ hx))
      (crcByteStep_lt hs hb) (crcByteStep_lt ht hb)
      (fun h => hne (crcByteStep_inj hs ht hb h))

theorem crc16_lt (l : List Nat) (hl : ∀ b ∈ l, b < 2 ^ 16) : crc16 l < 2 ^ 16 :=
  foldl_crcByteStep_lt l hl (by norm_num)

/-- Flipping one bit of one byte changes the CRC. -/
theorem crc16_flip_ne (bytes : List Nat) (hb : ∀ b ∈ bytes, b < 256) (i : Nat)
    (hi : i < bytes.length) (j : Nat) (hj : j < 8) :
    crc16 (bytes.set i (bytes[i] ^^^ 2 ^ j)) ≠ crc16 bytes := by
  have hsplit : bytes.set i (bytes[i] ^^^ 2 ^ j) =
      bytes.take i ++ (bytes[i] ^^^ 2 ^ j) :: bytes.drop (i + 1) := by
    rw [List.set_eq_take_append_cons_drop, if_pos hi]
  have hsplit2 : bytes = bytes.take i ++ bytes[i] :: bytes.drop (i + 1) := by
    conv_lhs => rw [← List.take_append_drop i bytes]
    rw [List.drop_eq_getElem_cons hi]
  have hlt : ∀ b ∈ bytes, b < 2 ^ 16 := fun b h => lt_of_lt_of_le (hb b h) (by norm_num)
  rw [hsplit]
  conv_rhs => rw [hsplit2]
  unfold crc16
  rw [List.foldl_append, List.foldl_append, List.foldl_cons, List.foldl_cons]
  have hmemtake : ∀ b ∈ bytes.take i, b < 2 ^ 16 := fun b h =>
    hlt b (List.mem_of_mem_take h)
  have hmemdrop : ∀ b ∈ bytes.drop (i + 1), b < 2 ^ 16 := fun b h =>
    hlt b (List.mem_of_mem_drop h)
  have hs0 : (bytes.take i).foldl crcByteStep 0xFFFF < 2 ^ 16 :=
    foldl_crcByteStep_lt _ hmemtake (by norm_num)
  have hbi : bytes[i] < 2 ^ 16 := hlt _ (List.getElem_mem hi)
  have hbij : bytes[i] ^^^ 2 ^ j < 2 ^ 16 :=
    Nat.xor_lt_two_pow hbi (by
      calc 2 ^ j ≤ 2 ^ 7 := Nat.pow_le_pow_right (by norm_num) (by omega)
      _ < 2 ^ 16 := by norm_num)
  have hbne : bytes[i] ^^^ 2 ^ j ≠ bytes[i] := by
    intro h
    have h2 : bytes[i] ^^^ 2 ^ j = bytes[i] ^^^ 0 := by simpa using h
    have h3 := xor_left_cancel h2
    have hpos : 0 < 2 ^ j := Nat.pos_pow_of_pos j (by norm_num)
    omega
  exact foldl_crcByteStep_inj _ hmemdrop
    (crcByteStep_lt hs0 hbij) (crcByteStep_lt hs0 hbi)
    (fun h => hbne (crcByteStep_byte_inj hs0 hbij hbi h))

/-- `(r &&& 0xFF00) >>> 8` extracts the high byte of a 16-bit value. -/
theorem and_FF00_shr {r : Nat} (hr : r < 2 ^ 16) : (r &&& 0xFF00) >>> 8 = r / 256 := by
  have h256 : r / 256 = r >>> 8 := (Nat.shiftRight_eq_div_pow r 8).symm
  rw [h256]
  apply Nat.eq_of_testBit_eq
  intro i
  rw [Nat.testBit_shiftRight, Nat.testBit_shiftRight, Nat.testBit_and]
  by_cases hi : i < 8
  · have hbit : (0xFF00 : Nat).testBit (8 + i) = true := by
      rw [show (0xFF00 : Nat) = (2 ^ 8 - 1) <<< 8 by decide, Nat.testBit_shiftLeft,
        Nat.testBit_two_pow_sub_one]
      simp only [Nat.le_add_right, decide_True, Bool.true_and, Nat.add_sub_cancel_left,
        decide_eq_true_eq]
      omega
    rw [hbit, Bool.and_true]
  · have h16 : r < 2 ^ (8 + i) := lt_of_lt_of_le hr (Nat.pow_le_pow_right (by norm_num) (by omega))
    rw [Nat.testBit_lt_two_pow h16, Bool.false_and]

/-- The low/high byte split is injective on 16-bit values. -/
theorem crcBytes_inj {r r' : Nat} (hr : r < 2 ^ 16) (hr' : r' < 2 ^ 16)
    (h : crcBytes r = crcBytes r') : r = r' := by
  unfold crcBytes at h
  have hlow : r % 256 = r' % 256 := by
    have h1 := congrArg Prod.fst h
    have e : ∀ x : Nat, x &&& 0xFF = x % 256 := fun x => by
      have e2 := Nat.and_pow_two_sub_one_eq_mod x 8
      norm_num at e2
      exact e2
    simp only [e] at h1
    exact h1
  have hhigh : r / 256 = r' / 256 := by
    have h2 := congrArg Prod.snd h
    simpa [and_FF00_shr hr, and_FF00_shr hr'] using h2
  omega

/-! ## Claim C10 -/

/-- Claim C10: for every inbound (server-to-client) ADU whose first byte is
outside `1..247`, the server-id annotation emitted for byte 0 carries the
literal text `Slave ID {} is invalid` with the placeholder left
unsubstituted (the source never calls `.format` on this string), so the
annotation text never contains the invalid id value. -/
theorem C10_invalid_slave_id_text (s : Nat) (t0 t1 st : Int)
    (h : ¬(1 ≤ s ∧ s ≤ 247)) :
    (add_data t0 t1 ⟨"DATA", 0, s⟩ (mkADU st TX "Sc-" Dir.sc)).2.2 =
      [(t0, t1, "Sc-server-id", "Slave ID \x7b\x7d is invalid")] := by
  simp [add_data, ADU.parse, tryNMD, parse_SC_body, put_if_needed, mkADU,
    pyGetD, sc_server_id_message, h]

/-- Witness for C10 at the concrete invalid id 0. -/
theorem C10_invalid_slave_id_text_witness :
    ¬(1 ≤ 0 ∧ 0 ≤ 247) ∧
      (add_data 0 1 ⟨"DATA", 0, 0⟩ (mkADU 0 TX "Sc-" Dir.sc)).2.2 =
        [(0, 1, "Sc-server-id", "Slave ID \x7b\x7d is invalid")] :=
  ⟨by decide, C10_invalid_slave_id_text 0 0 1 0 (by decide)⟩

/-! ## Claim C8 -/

/-- Claim C8 counterexample: before the bit duration is learned, a data byte
is *not* buffered: `decode_ADU` returns with the state completely unchanged
(no ADU is created, the byte value 66 is recorded nowhere), and after a
subsequent start bit establishes the bit duration, the ADU that is then
created starts with an empty buffer — the earlier byte was lost, not
processed. -/
theorem C8_counterexample :
    decode_ADU 5 0 10 ⟨"DATA", 0, 66⟩ Dir.sc (mkDecSt "RX") =
      (Except.ok (), mkDecSt "RX", []) ∧
    ((decode_ADU 5 10 11 ⟨"STARTBIT", 0, 0⟩ Dir.sc (mkDecSt "RX")).2.1.ADUSc).map
        ADU.data = some [] := by
  constructor
  · rfl
  · rfl

/-- Claim C8 amended: before the bit duration has been learned from the
first bit-edge event, every incoming data byte is *discarded* — `decode_ADU`
returns with the decoder state unchanged and emits nothing; such bytes are
never buffered and never processed later. -/
theorem C8_amended_bytes_dropped (fuel : Nat) (ss es : Int) (ch v : Nat)
    (dir : Dir) (st : DecSt) (hb : st.bitlength = none) :
    decode_ADU fuel ss es ⟨"DATA", ch, v⟩ dir st = (Except.ok (), st, []) := by
  cases fuel with
  | zero => rfl
  | succ fuel => simp [decode_ADU, hb]

/-- Witness for the amended C8. -/
theorem C8_amended_bytes_dropped_witness :
    (mkDecSt "RX").bitlength = none ∧
      decode_ADU 5 0 10 ⟨"DATA", 0, 66⟩ Dir.sc (mkDecSt "RX") =
        (Except.ok (), mkDecSt "RX", []) :=
  ⟨rfl, C8_amended_bytes_dropped 5 0 10 0 66 Dir.sc (mkDecSt "RX") rfl⟩

/-! ## Claim C9 -/

/-- Claim C9 counterexample: `put_if_needed` with the `"error"` annotation
sets `hasError` even when it emits nothing (because the target byte is
already covered by the high-water mark).  Here the ADU has one byte, already
annotated (`last_byte_put = 0`) and `hasError = false`; the call emits no
annotation yet flips `hasError` to `true` — refuting "an operation that
emits no annotation leaves has_error unchanged". -/
theorem C9_counterexample :
    (put_if_needed 0 "error" "x"
        { mkADU 0 TX "Sc-" Dir.sc with data := [⟨0, 1, 5⟩], last_byte_put := 0 }).2.2
      = [] ∧
    (put_if_needed 0 "error" "x"
        { mkADU 0 TX "Sc-" Dir.sc with data := [⟨0, 1, 5⟩], last_byte_put := 0 }).2.1.hasError
      = true ∧
    ({ mkADU 0 TX "Sc-" Dir.sc with
        data := [⟨0, 1, 5⟩], last_byte_put := (0 : Int) } : ADU).hasError = false := by
  refine ⟨?_, ?_, ?_⟩ <;> rfl

/-- Claim C9 amended: a `put_if_needed` call with the `"error"` annotation
sets `hasError` exactly when the target byte is present in the buffer —
regardless of whether an annotation is emitted — and a call with any other
annotation leaves `hasError` unchanged.  (So `has_error` can become true
without any annotation being emitted.) -/
theorem C9_amended_hasError (adu : ADU) (idx : Int) ( annot msg msg2 : String) :
    (put_if_needed idx "error" msg adu).2.1.hasError
      = (adu.hasError || decide (idx ≤ (adu.data.length : Int) - 1)) ∧
    ( annot ≠ "error" →
      (put_if_needed idx annot msg2 adu).2.1.hasError = adu.hasError) := by
  constructor
  · by_cases hlen : idx > (adu.data.length : Int) - 1
    · have h2 : ¬(idx ≤ (adu.data.length : Int) - 1) := by omega
      simp [put_if_needed, hlen, h2]
    · have h2 : idx ≤ (adu.data.length : Int) - 1 := by omega
      by_cases h4 : adu.last_byte_put < idx <;>
        simp [put_if_needed, hlen, h2, h4]
  · intro hne
    by_cases hlen : idx > (adu.data.length : Int) - 1
    · simp [put_if_needed, hlen]
    · by_cases h4 : adu.last_byte_put < idx <;>
        simp [put_if_needed, hlen, hne, h4]

/-- Witness for the amended C9. -/
theorem C9_amended_hasError_witness :
    ("crc" : String) ≠ "error" ∧
      (put_if_needed 0 "crc" "y"
          { mkADU 0 TX "Sc-" Dir.sc with data := [⟨0, 1, 5⟩], last_byte_put := 0 }).2.1.hasError
        = ({ mkADU 0 TX "Sc-" Dir.sc with
              data := [⟨0, 1, 5⟩], last_byte_put := (0 : Int) } : ADU).hasError :=
  ⟨by decide,
   (C9_amended_hasError
      { mkADU 0 TX "Sc-" Dir.sc with data := [⟨0, 1, 5⟩], last_byte_put := 0 }
      0 "crc" "x" "y").2 (by decide)⟩

/-! ## Claim C7 -/

/-- Claim C7 (code bug): function code 20 is *not* recognized by either
dispatcher.  The membership tests in both `Modbus_ADU_CS.parse` and
`Modbus_ADU_SC.parse` are written `function in {21, 21, 24, 43}` (21 twice,
20 absent), so a message with function code 20 falls into the
unknown-function branch and is annotated `Unknown function: 20` instead of
`Function 20: Read File Record (not supported)`; `parse_read_file_record`
and the entry 20 of `not_implemented_names` are dead code. -/
theorem C7_code_evaluation :
    (runBytes [(0, 1, 17), (2, 3, 20)] (mkADU 0 TX "Cs-" Dir.cs)).2 =
      [(0, 1, "Cs-server-id", "Slave ID: 17"),
       (2, 3, "Cs-error", "Unknown function: 20")] ∧
    (runBytes [(0, 1, 17), (2, 3, 20)] (mkADU 0 TX "Sc-" Dir.sc)).2 =
      [(0, 1, "Sc-server-id", "Slave ID: 17"),
       (2, 3, "Sc-error", "Unknown function: 20")] := by
  constructor
  · rfl
  · rfl

/-! ## Claim C5 -/

/-- Claim C5 (code bug): for a client-to-server Write Multiple request,
`minimum_length` is *not* refined to `bytecount + 9`.  The source assigns
the misspelled attribute `self.mimumum_length` (lines
`self.mimumum_length = 9` and `self.mimumum_length = bytecount + 9`), so
`minimum_length` stays at the protocol floor 4, and `close` on a message
truncated after 7 bytes (a Write-Multiple-Registers request that should be
13 bytes long) emits no "Message too short or not finished" error and
changes nothing. -/
theorem C5_code_evaluation :
    (runBytes [(0, 1, 0x11), (2, 3, 0x10), (4, 5, 0), (6, 7, 1), (8, 9, 0),
        (10, 11, 2), (12, 13, 4)] (mkADU 0 TX "Cs-" Dir.cs)).1.minimum_length = 4 ∧
    (runBytes [(0, 1, 0x11), (2, 3, 0x10), (4, 5, 0), (6, 7, 1), (8, 9, 0),
        (10, 11, 2), (12, 13, 4)] (mkADU 0 TX "Cs-" Dir.cs)).1.mimumum_length = 9 ∧
    (runBytes [(0, 1, 0x11), (2, 3, 0x10), (4, 5, 0), (6, 7, 1), (8, 9, 0),
        (10, 11, 2), (12, 13, 4)] (mkADU 0 TX "Cs-" Dir.cs)).1.data.length = 7 ∧
    close 20 "RX"
        (runBytes [(0, 1, 0x11), (2, 3, 0x10), (4, 5, 0), (6, 7, 1), (8, 9, 0),
          (10, 11, 2), (12, 13, 4)] (mkADU 0 TX "Cs-" Dir.cs)).1 =
      ((runBytes [(0, 1, 0x11), (2, 3, 0x10), (4, 5, 0), (6, 7, 1), (8, 9, 0),
          (10, 11, 2), (12, 13, 4)] (mkADU 0 TX "Cs-" Dir.cs)).1, []) := by
  refine ⟨?_, ?_, ?_, ?_⟩ <;> rfl

/-! ## Claim C3 -/

/-- Claim C3: framing decision of `Decoder.decode_ADU`.  For a data-byte
event on a direction whose current ADU exists and is not marked for
replacement: if the event's start minus the ADU's `last_read` is at most
`28 × bitlength`, the byte is handed to that ADU via `add_data` (which
appends it and runs the parse step); otherwise the current ADU is closed
with overflow deadline `3 × bitlength` past the end of its last byte, a
fresh ADU is started for the direction, and the same byte event is
re-dispatched as the first byte of the new ADU (the close annotations
precede the new ADU's). -/
theorem C3_framing_decision (fuel : Nat) (st : DecSt) (bl : Int) (adu : ADU)
    (direction : Dir) (ss es : Int) (ch v : Nat)
    (hbl : st.bitlength = some bl) (hadu : getDirADU st direction = some adu)
    (hnf : adu.startNewFrame = false) :
    (ss - adu.last_read ≤ bl * 28 →
      decode_ADU (fuel + 1) ss es ⟨"DATA", ch, v⟩ direction st =
        ((add_data ss es ⟨"DATA", ch, v⟩ adu).1,
         setDirADU st direction (add_data ss es ⟨"DATA", ch, v⟩ adu).2.1,
         (add_data ss es ⟨"DATA", ch, v⟩ adu).2.2)) ∧
    (¬(ss - adu.last_read ≤ bl * 28) → adu.data ≠ [] → 0 ≤ bl →
      decode_ADU (fuel + 2) ss es ⟨"DATA", ch, v⟩ direction st =
        ((add_data ss es ⟨"DATA", ch, v⟩
            (mkADU ss TX (match direction with | Dir.sc => "Sc-" | Dir.cs => "Cs-") direction)).1,
         setDirADU st direction
           (add_data ss es ⟨"DATA", ch, v⟩
             (mkADU ss TX (match direction with | Dir.sc => "Sc-" | Dir.cs => "Cs-") direction)).2.1,
         (close ((pyGetD adu.data (-1)).stop + bl * 3) st.ScChannel adu).2 ++
           (add_data ss es ⟨"DATA", ch, v⟩
             (mkADU ss TX (match direction with | Dir.sc => "Sc-" | Dir.cs => "Cs-") direction)).2.2)) := by
  constructor
  · intro hgap
    have hgap2 : ss ≤ bl * 28 + adu.last_read := by omega
    cases direction with
    | sc =>
      have hsc : st.ADUSc = some adu := hadu
      rcases h : add_data ss es ⟨"DATA", ch, v⟩ adu with ⟨r, adu1, anns⟩
      simp [decode_ADU, hbl, hsc, hnf, hgap, hgap2, setDirADU, getDirADU, h]
    | cs =>
      have hcs : st.ADUCs = some adu := hadu
      rcases h : add_data ss es ⟨"DATA", ch, v⟩ adu with ⟨r, adu1, anns⟩
      simp [decode_ADU, hbl, hcs, hnf, hgap, hgap2, setDirADU, getDirADU, h]
  · intro hgap hne hbl0
    have hgap2 : ¬(ss ≤ bl * 28 + adu.last_read) := by omega
    have h28 : ss ≤ bl * 28 + ss := by omega
    cases direction with
    | sc =>
      have hsc : st.ADUSc = some adu := hadu
      have hlen : adu.data.length > 0 := List.length_pos.mpr hne
      rcases hc : close ((pyGetD adu.data (-1)).stop + bl * 3) st.ScChannel adu with
        ⟨aduC, annsC⟩
      rcases h : add_data ss es ⟨"DATA", ch, v⟩ (mkADU ss TX "Sc-" Dir.sc) with
        ⟨r, adu1, anns1⟩
      simp only [mkADU] at h
      simp [decode_ADU, hbl, hsc, hnf, hgap, hgap2, h28, hbl0, hlen, setDirADU,
        getDirADU, hc, h, mkADU]
    | cs =>
      have hcs : st.ADUCs = some adu := hadu
      have hlen : adu.data.length > 0 := List.length_pos.mpr hne
      rcases hc : close ((pyGetD adu.data (-1)).stop + bl * 3) st.ScChannel adu with
        ⟨aduC, annsC⟩
      rcases h : add_data ss es ⟨"DATA", ch, v⟩ (mkADU ss TX "Cs-" Dir.cs) with
        ⟨r, adu1, anns1⟩
      simp only [mkADU] at h
      simp [decode_ADU, hbl, hcs, hnf, hgap, hgap2, h28, hbl0, hlen, setDirADU,
        getDirADU, hc, h, mkADU]

/-- Witness for C3 at a concrete over-threshold gap: the stale ADU (one byte,
`last_read = 1`) is closed and the byte restarts a fresh ADU. -/
theorem C3_framing_decision_witness :
    ¬((100 : Int) - ({ mkADU 0 TX "Sc-" Dir.sc with
        data := [⟨0, 1, 17⟩], last_read := 1 } : ADU).last_read ≤ 1 * 28) ∧
    decode_ADU (0 + 2) 100 101 ⟨"DATA", 0, 5⟩ Dir.sc
        { ADUSc := some { mkADU 0 TX "Sc-" Dir.sc with data := [⟨0, 1, 17⟩], last_read := 1 },
          ADUCs := none, bitlength := some 1, ScChannel := "RX" } =
      ((add_data 100 101 ⟨"DATA", 0, 5⟩ (mkADU 100 TX "Sc-" Dir.sc)).1,
       setDirADU
         { ADUSc := some { mkADU 0 TX "Sc-" Dir.sc with data := [⟨0, 1, 17⟩], last_read := 1 },
           ADUCs := none, bitlength := some 1, ScChannel := "RX" } Dir.sc
         (add_data 100 101 ⟨"DATA", 0, 5⟩ (mkADU 100 TX "Sc-" Dir.sc)).2.1,
       (close ((pyGetD [(⟨0, 1, 17⟩ : Data)] (-1)).stop + 1 * 3) "RX"
          { mkADU 0 TX "Sc-" Dir.sc with data := [⟨0, 1, 17⟩], last_read := 1 }).2 ++
         (add_data 100 101 ⟨"DATA", 0, 5⟩ (mkADU 100 TX "Sc-" Dir.sc)).2.2) :=
  ⟨by decide,
   (C3_framing_decision 0
      { ADUSc := some { mkADU 0 TX "Sc-" Dir.sc with data := [⟨0, 1, 17⟩], last_read := 1 },
        ADUCs := none, bitlength := some 1, ScChannel := "RX" }
      1 { mkADU 0 TX "Sc-" Dir.sc with data := [⟨0, 1, 17⟩], last_read := 1 }
      Dir.sc 100 101 0 5 rfl rfl rfl).2 (by decide) (by decide) (by decide)⟩

/-! ## Claim C4 -/

/-- Each `put_if_needed` call either emits nothing and leaves the high-water
mark unchanged, or emits at an index strictly above the old mark and within
the buffer, moving the mark there. -/
theorem pif_step (adu : ADU) (idx : Int) ( annot msg : String) :
    ((put_if_needed idx annot msg adu).2.2 = [] ∧
      (put_if_needed idx annot msg adu).2.1.last_byte_put = adu.last_byte_put) ∨
    (adu.last_byte_put < idx ∧ idx ≤ (adu.data.length : Int) - 1 ∧
      (put_if_needed idx annot msg adu).2.1.last_byte_put = idx ∧
      (put_if_needed idx annot msg adu).2.2 ≠ []) := by
  by_cases hlen : idx > (adu.data.length : Int) - 1
  · left
    simp [put_if_needed, hlen]
  · by_cases h4 : adu.last_byte_put < idx
    · right
      refine ⟨h4, by omega, ?_, ?_⟩ <;> by_cases he : annot = "error" <;>
        simp [put_if_needed, hlen, h4, he]
    · left
      by_cases he : annot = "error" <;> simp [put_if_needed, hlen, h4, he]

/-- One `put_if_needed` call never decreases the high-water mark. -/
theorem pif_mono (adu : ADU) (idx : Int) ( annot msg : String) :
    adu.last_byte_put ≤ (put_if_needed idx annot msg adu).2.1.last_byte_put := by
  rcases pif_step adu idx annot msg with ⟨_, he⟩ | ⟨hlt, _, he, _⟩ <;> omega

/-- The high-water mark is monotone over any sequence of `put_if_needed`
calls. -/
theorem applyPIF_mono (calls : List (Int × String × String)) (adu : ADU) :
    adu.last_byte_put ≤ (applyPIF calls adu).1.last_byte_put := by
  induction calls generalizing adu with
  | nil => simp [applyPIF]
  | cons c rest ih =>
    have h1 := pif_mono adu c.1 c.2.1 c.2.2
    have h2 := ih (put_if_needed c.1 c.2.1 c.2.2 adu).2.1
    rcases h : put_if_needed c.1 c.2.1 c.2.2 adu with ⟨r, a, l⟩
    rw [h] at h1 h2
    dsimp only at h1 h2
    simp only [applyPIF, h]
    rcases h3 : applyPIF rest a with ⟨a2, l2⟩
    rw [h3] at h2
    dsimp only at h2
    dsimp only
    omega

/-- The index intervals covered by the annotations of any sequence of
`put_if_needed` calls are contiguous, non-empty and start right after the
current high-water mark — hence pairwise disjoint. -/
theorem coverage_chained (calls : List (Int × String × String)) (adu : ADU) :
    ChainedB adu.last_byte_put (coverage calls adu) = true := by
  induction calls generalizing adu with
  | nil => simp [coverage, ChainedB]
  | cons c rest ih =>
    have hs := pif_step adu c.1 c.2.1 c.2.2
    have hchain := ih (put_if_needed c.1 c.2.1 c.2.2 adu).2.1
    rcases h : put_if_needed c.1 c.2.1 c.2.2 adu with ⟨r, a, l⟩
    rw [h] at hs hchain
    dsimp only at hs hchain
    rcases hs with ⟨hl, hlbp⟩ | ⟨hlt, hle, hlbp, hne⟩
    · simp only [coverage, h]
      have hle2 : l.isEmpty = true := by simp [hl]
      rw [if_pos hle2]
      rw [hlbp] at hchain
      exact hchain
    · simp only [coverage, h]
      have hlne : ¬(l.isEmpty = true) := by
        simpa [List.isEmpty_iff] using hne
      rw [if_neg hlne]
      rw [hlbp] at hchain
      simp [ChainedB, hchain]
      omega

/-- Claim C4: emission-primitive invariants of `put_if_needed`.  The
high-water mark never decreases (single call and arbitrary call sequences);
a call whose target index lies beyond the buffer raises `No_more_data` with
no emission and no state change; an emitted annotation spans exactly bytes
`high_water_mark + 1 .. byte_to_put` (start of the first uncovered byte to
end of the target byte) and moves the mark to its end index; and over any
call sequence the covered index intervals are contiguous and pairwise
disjoint (`ChainedB`). -/
theorem C4_emission_invariants (adu : ADU) (idx : Int) ( annot msg : String)
    (calls : List (Int × String × String)) :
    adu.last_byte_put ≤ (put_if_needed idx annot msg adu).2.1.last_byte_put ∧
    (idx > (adu.data.length : Int) - 1 →
      put_if_needed idx annot msg adu = (Except.error PErr.noMoreData, adu, [])) ∧
    (∀ a ∈ (put_if_needed idx annot msg adu).2.2,
      adu.last_byte_put < idx ∧ idx ≤ (adu.data.length : Int) - 1 ∧
      (put_if_needed idx annot msg adu).2.1.last_byte_put = idx ∧
      a.1 = (pyGetD adu.data (adu.last_byte_put + 1)).start ∧
      a.2.1 = (pyGetD adu.data idx).stop) ∧
    adu.last_byte_put ≤ (applyPIF calls adu).1.last_byte_put ∧
    ChainedB adu.last_byte_put (coverage calls adu) = true := by
  refine ⟨pif_mono adu idx annot msg, ?_, ?_, applyPIF_mono calls adu,
    coverage_chained calls adu⟩
  · intro hlen
    simp [put_if_needed, hlen]
  · intro a ha
    by_cases hlen : idx > (adu.data.length : Int) - 1
    · simp [put_if_needed, hlen] at ha
    · by_cases h4 : adu.last_byte_put < idx
      · by_cases he : annot = "error"
        · simp [put_if_needed, hlen, h4, he] at ha
          refine ⟨h4, by omega, ?_, ?_, ?_⟩ <;>
            simp [put_if_needed, hlen, h4, he, ha]
        · simp [put_if_needed, hlen, h4, he] at ha
          refine ⟨h4, by omega, ?_, ?_, ?_⟩ <;>
            simp [put_if_needed, hlen, h4, he, ha]
      · by_cases he : annot = "error" <;> simp [put_if_needed, hlen, h4, he] at ha

/-- Witness for C4: a call beyond the (empty) buffer raises `No_more_data`
without emission or mutation. -/
theorem C4_emission_invariants_witness :
    ((0 : Int) > ((mkADU 0 TX "Sc-" Dir.sc).data.length : Int) - 1) ∧
      put_if_needed 0 "crc" "x" (mkADU 0 TX "Sc-" Dir.sc) =
        (Except.error PErr.noMoreData, mkADU 0 TX "Sc-" Dir.sc, []) :=
  ⟨by decide, (C4_emission_invariants (mkADU 0 TX "Sc-" Dir.sc) 0 "crc" "x" []).2.1
    (by decide)⟩

/-! ## Claim C2 -/

/-- Unfolding of `check_CRC`: recompute the code over the prefix
`data[: byte_to_put - 1]` and branch on a comparison with the *last two*
buffer bytes. -/
theorem check_CRC_eq (byte_to_put : Int) (adu : ADU) (h3 : ¬ byte_to_put < 3) :
    check_CRC byte_to_put adu =
      (if (pyGetD adu.data (-2)).data =
            (crcBytes (crc16 ((adu.data.take (byte_to_put - 1).toNat).map Data.data))).1 ∧
          (pyGetD adu.data (-1)).data =
            (crcBytes (crc16 ((adu.data.take (byte_to_put - 1).toNat).map Data.data))).2 then
        put_if_needed byte_to_put "crc" "CRC correct" adu
      else
        put_if_needed byte_to_put "error"
          ("CRC should be " ++
            toString (crcBytes (crc16 ((adu.data.take (byte_to_put - 1).toNat).map Data.data))).1 ++
            " " ++
            toString (crcBytes (crc16 ((adu.data.take (byte_to_put - 1).toNat).map Data.data))).2)
          adu) := by
  simp only [check_CRC, bind_apply, getADU_apply, calc_crc, if_neg h3]
  split <;> simp

/-- Claim C2 counterexample: `check_CRC` does *not* compare the computed
code against buffer positions `checksum_end_index - 1` and
`checksum_end_index`.  Here the buffer holds `[1, 2, 3, 97, 97, 99]`, the
code over the prefix `[1, 2, 3]` is `(97, 97)`, and positions 3 and 4 hold
exactly those bytes — yet with `checksum_end_index = 4` the code reports a
mismatch, because it actually compares `data[-2]` and `data[-1]`
(positions 4 and 5, i.e. `97` and `99`). -/
theorem C2_counterexample :
    (pyGetD [(⟨0, 1, 1⟩ : Data), ⟨2, 3, 2⟩, ⟨4, 5, 3⟩, ⟨6, 7, 97⟩, ⟨8, 9, 97⟩,
        ⟨10, 11, 99⟩] 3).data = 97 ∧
    (pyGetD [(⟨0, 1, 1⟩ : Data), ⟨2, 3, 2⟩, ⟨4, 5, 3⟩, ⟨6, 7, 97⟩, ⟨8, 9, 97⟩,
        ⟨10, 11, 99⟩] 4).data = 97 ∧
    crcBytes (crc16 ((([(⟨0, 1, 1⟩ : Data), ⟨2, 3, 2⟩, ⟨4, 5, 3⟩, ⟨6, 7, 97⟩, ⟨8, 9, 97⟩,
        ⟨10, 11, 99⟩] : List Data).take 3).map Data.data)) = (97, 97) ∧
    (check_CRC 4
        { mkADU 0 TX "Sc-" Dir.sc with
          data := [⟨0, 1, 1⟩, ⟨2, 3, 2⟩, ⟨4, 5, 3⟩, ⟨6, 7, 97⟩, ⟨8, 9, 97⟩, ⟨10, 11, 99⟩],
          last_byte_put := 3 }).2.2 =
      [(8, 9, "Sc-error", "CRC should be 97 97")] := by
  refine ⟨rfl, rfl, rfl, rfl⟩

/-- Claim C2 amended: for every ADU buffer and `checksum_end_index ≥ 3` that
lies within the buffer, with the high-water mark just below it, `check_CRC`
recomputes the 16-bit code over the prefix `buffer[: checksum_end_index - 1]`
and compares the two computed bytes against the *last two bytes of the
buffer* (`data[-2]`, `data[-1]` — which coincide with positions
`checksum_end_index - 1`, `checksum_end_index` only when the buffer ends at
the checksum), emitting a 'CRC correct' annotation exactly when both match
and a checksum-mismatch error listing the two expected bytes otherwise. -/
theorem C2_check_CRC_behaviour (adu : ADU) (idx : Int)
    (h3 : 3 ≤ idx) (hlen : idx ≤ (adu.data.length : Int) - 1)
    (hwm : adu.last_byte_put = idx - 1) :
    (((pyGetD adu.data (-2)).data =
        (crcBytes (crc16 ((adu.data.take (idx - 1).toNat).map Data.data))).1 ∧
      (pyGetD adu.data (-1)).data =
        (crcBytes (crc16 ((adu.data.take (idx - 1).toNat).map Data.data))).2) →
      (check_CRC idx adu).2.2 =
        [((pyGetD adu.data idx).start, (pyGetD adu.data idx).stop,
          ADU.annotation_prefix adu ++ "crc", "CRC correct")]) ∧
    (¬((pyGetD adu.data (-2)).data =
        (crcBytes (crc16 ((adu.data.take (idx - 1).toNat).map Data.data))).1 ∧
      (pyGetD adu.data (-1)).data =
        (crcBytes (crc16 ((adu.data.take (idx - 1).toNat).map Data.data))).2) →
      (check_CRC idx adu).2.2 =
        [((pyGetD adu.data idx).start, (pyGetD adu.data idx).stop,
          ADU.annotation_prefix adu ++ "error",
          "CRC should be " ++
            toString (crcBytes (crc16 ((adu.data.take (idx - 1).toNat).map Data.data))).1 ++
            " " ++
            toString (crcBytes (crc16 ((adu.data.take (idx - 1).toNat).map Data.data))).2)]) := by
  have hnlt : ¬(idx < 3) := by omega
  have hngt : ¬(idx > (adu.data.length : Int) - 1) := by omega
  have hgt : adu.last_byte_put < idx := by omega
  have hidx : adu.last_byte_put + 1 = idx := by omega
  rw [check_CRC_eq idx adu hnlt]
  constructor
  · intro hcmp
    rw [if_pos hcmp]
    simp [put_if_needed, hngt, hgt, hidx]
  · intro hcmp
    rw [if_neg hcmp]
    simp [put_if_needed, hngt, hgt, hidx]

/-- Witness for the amended C2 on the counterexample buffer (the mismatch
branch). -/
theorem C2_check_CRC_behaviour_witness :
    (3 : Int) ≤ 4 ∧
      (check_CRC 4
          { mkADU 0 TX "Sc-" Dir.sc with
            data := [⟨0, 1, 1⟩, ⟨2, 3, 2⟩, ⟨4, 5, 3⟩, ⟨6, 7, 97⟩, ⟨8, 9, 97⟩, ⟨10, 11, 99⟩],
            last_byte_put := 3 }).2.2 =
        [((pyGetD ({ mkADU 0 TX "Sc-" Dir.sc with
            data := [⟨0, 1, 1⟩, ⟨2, 3, 2⟩, ⟨4, 5, 3⟩, ⟨6, 7, 97⟩, ⟨8, 9, 97⟩, ⟨10, 11, 99⟩],
            last_byte_put := 3 } : ADU).data 4).start,
          (pyGetD ({ mkADU 0 TX "Sc-" Dir.sc with
            data := [⟨0, 1, 1⟩, ⟨2, 3, 2⟩, ⟨4, 5, 3⟩, ⟨6, 7, 97⟩, ⟨8, 9, 97⟩, ⟨10, 11, 99⟩],
            last_byte_put := 3 } : ADU).data 4).stop,
          ADU.annotation_prefix ({ mkADU 0 TX "Sc-" Dir.sc with
            data := [⟨0, 1, 1⟩, ⟨2, 3, 2⟩, ⟨4, 5, 3⟩, ⟨6, 7, 97⟩, ⟨8, 9, 97⟩, ⟨10, 11, 99⟩],
            last_byte_put := 3 } : ADU) ++ "error",
          "CRC should be " ++
            toString (crcBytes (crc16 (((({ mkADU 0 TX "Sc-" Dir.sc with
              data := [⟨0, 1, 1⟩, ⟨2, 3, 2⟩, ⟨4, 5, 3⟩, ⟨6, 7, 97⟩, ⟨8, 9, 97⟩, ⟨10, 11, 99⟩],
              last_byte_put := 3 } : ADU).data.take ((4 : Int) - 1).toNat)).map Data.data))).1 ++
            " " ++
            toString (crcBytes (crc16 (((({ mkADU 0 TX "Sc-" Dir.sc with
              data := [⟨0, 1, 1⟩, ⟨2, 3, 2⟩, ⟨4, 5, 3⟩, ⟨6, 7, 97⟩, ⟨8, 9, 97⟩, ⟨10, 11, 99⟩],
              last_byte_put := 3 } : ADU).data.take ((4 : Int) - 1).toNat)).map Data.data))).2)] :=
  ⟨by decide,
   (C2_check_CRC_behaviour
      { mkADU 0 TX "Sc-" Dir.sc with
        data := [⟨0, 1, 1⟩, ⟨2, 3, 2⟩, ⟨4, 5, 3⟩, ⟨6, 7, 97⟩, ⟨8, 9, 97⟩, ⟨10, 11, 99⟩],
        last_byte_put := 3 }
      4 (by decide) (by decide) (by decide)).2 (by decide)⟩

/-! ## Claim C6 -/

/-- Claim C6 counterexample: function code `0x80` *has* the high bit set,
but the dispatcher tests `function > 0x80` strictly, so an inbound message
`[0x11, 0x80, 0x02]` is annotated with an "Unknown function: 128" error
instead of an exception-response function annotation. -/
theorem C6_counterexample :
    (runBytes [(0, 1, 17), (2, 3, 128), (4, 5, 2)] (mkADU 0 TX "Sc-" Dir.sc)).2 =
      [(0, 1, "Sc-server-id", "Slave ID: 17"),
       (2, 3, "Sc-error", "Unknown function: 128"),
       (4, 5, "Sc-error", "Unknown function")] := by
  rfl

/-- Claim C6 amended: for every inbound (server-to-client) message whose
function-code byte is *strictly greater than* `0x80` (high bit set and not
exactly `0x80`), the decoder emits an exception-response function annotation
naming the underlying function (code minus `0x80`, looked up in the 19-entry
name table, default "Unknown function") and a data annotation with the
exception reason from the 9-entry `error_codes` table (default "Unknown");
in particular `0x85` decodes as an error response for function 5,
Write Single Coil. -/
theorem C6_exception_responses (s f e : Nat) (u0 u1 u2 u3 u4 u5 st : Int)
    (hf : 128 < f) :
    (runBytes [(u0, u1, s), (u2, u3, f), (u4, u5, e)] (mkADU st TX "Sc-" Dir.sc)).2 =
      [(u0, u1, "Sc-server-id", sc_server_id_message s),
       (u2, u3, "Sc-function",
        "Error for function " ++ toString (f - 128) ++ ": " ++
          (error_functions (f - 128)).getD "Unknown function"),
       (u4, u5, "Sc-data",
        "Error " ++ toString e ++ ": " ++ (error_codes e).getD "Unknown")] ∧
    (runBytes [(0, 1, 17), (2, 3, 0x85), (4, 5, 2)] (mkADU 0 TX "Sc-" Dir.sc)).2 =
      [(0, 1, "Sc-server-id", "Slave ID: 17"),
       (2, 3, "Sc-function", "Error for function 5: Write Single Coil"),
       (4, 5, "Sc-data", "Error 2: Illegal Data Address")] := by
  constructor
  · have h1 : ¬(f = 1 ∨ f = 2) := by omega
    have h2 : ¬(f = 3 ∨ f = 4 ∨ f = 23) := by omega
    have h5 : f ≠ 5 := by omega
    have h6 : f ≠ 6 := by omega
    have h7 : f ≠ 7 := by omega
    have h8 : f ≠ 8 := by omega
    have h11 : f ≠ 11 := by omega
    have h12 : f ≠ 12 := by omega
    have h15 : ¬(f = 15 ∨ f = 16) := by omega
    have h17 : f ≠ 17 := by omega
    have h22 : f ≠ 22 := by omega
    have h21 : ¬(f = 21 ∨ f = 21 ∨ f = 24 ∨ f = 43) := by omega
    have h21b : ¬(f = 21 ∨ f = 24 ∨ f = 43) := by omega
    have h80 : f > 128 := hf
    simp [runBytes, add_data, ADU.parse, tryNMD, parse_SC_body, parse_error,
      put_if_needed, put_last_byte, half_word, check_CRC, calc_crc,
      setMimumumLength, setMinimumLength, mkADU, pyGetD,
      h1, h2, h5, h6, h7, h8, h11, h12, h15, h17, h22, h21, h21b, h80,
      String.append_assoc]
  · rfl

/-- Witness for the amended C6 at `f = 0x85`. -/
theorem C6_exception_responses_witness :
    128 < 0x85 ∧
      (runBytes [(0, 1, 17), (2, 3, 0x85), (4, 5, 2)] (mkADU 0 TX "Sc-" Dir.sc)).2 =
        [(0, 1, "Sc-server-id", sc_server_id_message 17),
         (2, 3, "Sc-function",
          "Error for function " ++ toString (0x85 - 128) ++ ": " ++
            (error_functions (0x85 - 128)).getD "Unknown function"),
         (4, 5, "Sc-data",
          "Error " ++ toString 2 ++ ": " ++ (error_codes 2).getD "Unknown")] :=
  ⟨by decide,
   (C6_exception_responses 17 0x85 2 0 1 2 3 4 5 0 (by decide)).1⟩

/-! ## Claim C1 -/

theorem pyGetD_append2_m2 (l : List Data) (a b : Data) : pyGetD (l ++ [a, b]) (-2) = a := by
  unfold pyGetD
  have h1 : ((-2 : Int) < 0) = True := by simp
  simp only [List.length_append, List.length_cons, List.length_nil, h1, if_true]
  have h2 : (((l.length + (0 + 1 + 1) : Nat) : Int) + -2) = (l.length : Int) := by omega
  rw [h2]
  have h3 : ¬((l.length : Int) < 0) := by omega
  rw [if_neg h3]
  have h4 : (l.length : Int).toNat = l.length := by omega
  rw [h4]
  rw [List.getD_eq_getElem?_getD, List.getElem?_append_right (le_refl l.length)]
  simp

theorem pyGetD_append2_m1 (l : List Data) (a b : Data) : pyGetD (l ++ [a, b]) (-1) = b := by
  unfold pyGetD
  have h1 : ((-1 : Int) < 0) = True := by simp
  simp only [List.length_append, List.length_cons, List.length_nil, h1, if_true]
  have h2 : (((l.length + (0 + 1 + 1) : Nat) : Int) + -1) = (l.length : Int) + 1 := by omega
  rw [h2]
  have h3 : ¬((l.length : Int) + 1 < 0) := by omega
  rw [if_neg h3]
  have h4 : ((l.length : Int) + 1).toNat = l.length + 1 := by omega
  rw [h4]
  rw [List.getD_eq_getElem?_getD, List.getElem?_append_right (by omega)]
  have : l.length + 1 - l.length = 1 := by omega
  rw [this]
  simp

theorem pyGetD_append2_len (l : List Data) (a b : Data) :
    pyGetD (l ++ [a, b]) ((l.length : Int)) = a := by
  unfold pyGetD
  have h1 : ¬((l.length : Int) < 0) := by omega
  rw [if_neg h1, if_neg h1]
  have h4 : (l.length : Int).toNat = l.length := by omega
  rw [h4]
  rw [List.getD_eq_getElem?_getD, List.getElem?_append_right (le_refl l.length)]
  simp

theorem pyGetD_append2_len1 (l : List Data) (a b : Data) :
    pyGetD (l ++ [a, b]) ((l.length : Int) + 1) = b := by
  unfold pyGetD
  have h1 : ¬((l.length : Int) + 1 < 0) := by omega
  rw [if_neg h1, if_neg h1]
  have h4 : ((l.length : Int) + 1).toNat = l.length + 1 := by omega
  rw [h4]
  rw [List.getD_eq_getElem?_getD, List.getElem?_append_right (by omega)]
  have : l.length + 1 - l.length = 1 := by omega
  rw [this]
  simp

/-- A buffer made of a payload with its correctly appended CRC verifies as
matching: `check_CRC` at the last index emits the "CRC correct" annotation
spanning the two checksum bytes. -/
theorem C1part1 (entries : List Data) (t1 t2 t3 t4 : Int)
    (hlen : 4 ≤ entries.length) :
    (check_CRC ((entries.length : Int) + 1)
        { mkADU 0 TX "Sc-" Dir.sc with
          data := entries ++ [⟨t1, t2, (crcBytes (crc16 (entries.map Data.data))).1⟩,
                              ⟨t3, t4, (crcBytes (crc16 (entries.map Data.data))).2⟩],
          last_byte_put := (entries.length : Int) - 1 }).2.2 =
      [(t1, t4, "Sc-crc", "CRC correct")] := by
  have h3 : ¬((entries.length : Int) + 1 < 3) := by omega
  rw [check_CRC_eq _ _ h3]
  have htoNat : (((entries.length : Int) + 1) - 1).toNat = entries.length := by omega
  have htake : ((entries ++ [(⟨t1, t2, (crcBytes (crc16 (entries.map Data.data))).1⟩ : Data),
      ⟨t3, t4, (crcBytes (crc16 (entries.map Data.data))).2⟩]).take
      ((((entries.length : Int) + 1) - 1).toNat)) = entries := by
    rw [htoNat]
    exact List.take_left entries _
  simp only [htake, pyGetD_append2_m2, pyGetD_append2_m1]
  rw [if_pos ⟨trivial, trivial⟩]
  have hngt : ¬((entries.length : Int) + 1 >
      (((entries ++ [(⟨t1, t2, (crcBytes (crc16 (entries.map Data.data))).1⟩ : Data),
        ⟨t3, t4, (crcBytes (crc16 (entries.map Data.data))).2⟩]).length : Int) - 1)) := by
    simp [List.length_append]
    omega
  have hgt : ((entries.length : Int) - 1) < (entries.length : Int) + 1 := by omega
  simp only [put_if_needed, if_neg hngt]
  rw [if_neg (by decide : ¬("crc" : String) = "error")]
  dsimp only
  rw [if_pos hgt]
  have hsub : (entries.length : Int) - 1 + 1 = (entries.length : Int) := by omega
  simp only [hsub, pyGetD_append2_len, pyGetD_append2_len1]
  rfl

/-- A buffer whose last two bytes do not both equal the code recomputed over
the rest makes `check_CRC` emit exactly one annotation, on the error
channel. -/
theorem C1mismatch (pre : List Data) (a b : Data) (hlen : 4 ≤ pre.length)
    (hne : ¬(a.data = (crcBytes (crc16 (pre.map Data.data))).1 ∧
            b.data = (crcBytes (crc16 (pre.map Data.data))).2)) :
    ((check_CRC ((pre.length : Int) + 1)
        { mkADU 0 TX "Sc-" Dir.sc with
          data := pre ++ [a, b],
          last_byte_put := (pre.length : Int) - 1 }).2.2).map (fun x => x.2.2.1) =
      ["Sc-error"] := by
  have h3 : ¬((pre.length : Int) + 1 < 3) := by omega
  rw [check_CRC_eq _ _ h3]
  have htoNat : (((pre.length : Int) + 1) - 1).toNat = pre.length := by omega
  have htake : ((pre ++ [a, b]).take ((((pre.length : Int) + 1) - 1).toNat)) = pre := by
    rw [htoNat]
    exact List.take_left pre _
  simp only [htake, pyGetD_append2_m2, pyGetD_append2_m1]
  rw [if_neg hne]
  have hngt : ¬((pre.length : Int) + 1 > (((pre ++ [a, b]).length : Int) - 1)) := by
    simp [List.length_append]
    omega
  have hgt : ((pre.length : Int) - 1) < (pre.length : Int) + 1 := by omega
  simp only [put_if_needed, if_neg hngt, if_true]
  rw [if_pos hgt]
  rfl

theorem xor_two_pow_ne (x j : Nat) : x ^^^ 2 ^ j ≠ x := by
  intro h
  have h2 : x ^^^ 2 ^ j = x ^^^ 0 := by simpa using h
  have h3 := xor_left_cancel h2
  have hpos : 0 < 2 ^ j := Nat.pos_pow_of_pos j (by norm_num)
  omega

/-- Claim C1: checksum round trip.  For every payload of at least 4 bytes
(each a byte value), appending the two CRC bytes computed by `calc_crc`'s
algorithm (`crc16`/`crcBytes`: seed `0xFFFF`, polynomial `0xA001`,
LSB-first, low byte appended first) yields a buffer on which `check_CRC`
reports a match ("CRC correct"); flipping any single bit of any payload
byte, of the first checksum byte, or of the second checksum byte makes
`check_CRC` report a mismatch (a single error-channel annotation). -/
theorem C1_checksum_round_trip (entries : List Data) (t1 t2 t3 t4 : Int) (i j : Nat)
    (hlen : 4 ≤ entries.length) (hbytes : ∀ d ∈ entries, d.data < 256)
    (hi : i < entries.length) (hj : j < 8) :
    (check_CRC ((entries.length : Int) + 1)
        { mkADU 0 TX "Sc-" Dir.sc with
          data := entries ++ [⟨t1, t2, (crcBytes (crc16 (entries.map Data.data))).1⟩,
                              ⟨t3, t4, (crcBytes (crc16 (entries.map Data.data))).2⟩],
          last_byte_put := (entries.length : Int) - 1 }).2.2 =
      [(t1, t4, "Sc-crc", "CRC correct")] ∧
    ((check_CRC ((entries.length : Int) + 1)
        { mkADU 0 TX "Sc-" Dir.sc with
          data := (entries.set i { entries[i] with data := (entries[i]).data ^^^ 2 ^ j })
              ++ [⟨t1, t2, (crcBytes (crc16 (entries.map Data.data))).1⟩,
                  ⟨t3, t4, (crcBytes (crc16 (entries.map Data.data))).2⟩],
          last_byte_put := (entries.length : Int) - 1 }).2.2).map (fun x => x.2.2.1) =
      ["Sc-error"] ∧
    ((check_CRC ((entries.length : Int) + 1)
        { mkADU 0 TX "Sc-" Dir.sc with
          data := entries ++ [⟨t1, t2, (crcBytes (crc16 (entries.map Data.data))).1 ^^^ 2 ^ j⟩,
                              ⟨t3, t4, (crcBytes (crc16 (entries.map Data.data))).2⟩],
          last_byte_put := (entries.length : Int) - 1 }).2.2).map (fun x => x.2.2.1) =
      ["Sc-error"] ∧
    ((check_CRC ((entries.length : Int) + 1)
        { mkADU 0 TX "Sc-" Dir.sc with
          data := entries ++ [⟨t1, t2, (crcBytes (crc16 (entries.map Data.data))).1⟩,
                              ⟨t3, t4, (crcBytes (crc16 (entries.map Data.data))).2 ^^^ 2 ^ j⟩],
          last_byte_put := (entries.length : Int) - 1 }).2.2).map (fun x => x.2.2.1) =
      ["Sc-error"] := by
  have hbytesm : ∀ x ∈ entries.map Data.data, x < 256 := by
    intro x hx
    rcases List.mem_map.mp hx with ⟨d, hd, rfl⟩
    exact hbytes d hd
  have hbytes16 : ∀ x ∈ entries.map Data.data, x < 2 ^ 16 := fun x hx =>
    lt_of_lt_of_le (hbytesm x hx) (by norm_num)
  have hi2 : i < (entries.map Data.data).length := by simpa using hi
  refine ⟨C1part1 entries t1 t2 t3 t4 hlen, ?_, ?_, ?_⟩
  · have hflip := crc16_flip_ne (entries.map Data.data) hbytesm i hi2 j hj
    have hmap : ((entries.set i { entries[i] with data := (entries[i]).data ^^^ 2 ^ j }).map
          Data.data)
        = (entries.map Data.data).set i ((entries.map Data.data)[i] ^^^ 2 ^ j) := by
      rw [List.map_set]
      congr 1
      simp
    have hb2 : ∀ x ∈ (entries.map Data.data).set i ((entries.map Data.data)[i] ^^^ 2 ^ j),
        x < 2 ^ 16 := by
      intro x hx
      rcases List.mem_or_eq_of_mem_set hx with h | h
      · exact hbytes16 x h
      · subst h
        refine Nat.xor_lt_two_pow (hbytes16 _ (List.getElem_mem hi2)) ?_
        calc 2 ^ j ≤ 2 ^ 7 := Nat.pow_le_pow_right (by norm_num) (by omega)
        _ < 2 ^ 16 := by norm_num
    have hcrcne : crcBytes (crc16 (((entries.set i
          { entries[i] with data := (entries[i]).data ^^^ 2 ^ j })).map Data.data))
        ≠ crcBytes (crc16 (entries.map Data.data)) := by
      rw [hmap]
      intro h
      exact hflip (crcBytes_inj (crc16_lt _ hb2) (crc16_lt _ hbytes16) h)
    have hlen2 : 4 ≤ (entries.set i
        { entries[i] with data := (entries[i]).data ^^^ 2 ^ j }).length := by
      simpa using hlen
    have hne : ¬((crcBytes (crc16 (entries.map Data.data))).1 =
          (crcBytes (crc16 (((entries.set i
            { entries[i] with data := (entries[i]).data ^^^ 2 ^ j })).map Data.data))).1 ∧
        (crcBytes (crc16 (entries.map Data.data))).2 =
          (crcBytes (crc16 (((entries.set i
            { entries[i] with data := (entries[i]).data ^^^ 2 ^ j })).map Data.data))).2) := by
      rintro ⟨h1, h2⟩
      exact hcrcne (Prod.ext h1.symm h2.symm)
    have hmm := C1mismatch
      (entries.set i { entries[i] with data := (entries[i]).data ^^^ 2 ^ j })
      ⟨t1, t2, (crcBytes (crc16 (entries.map Data.data))).1⟩
      ⟨t3, t4, (crcBytes (crc16 (entries.map Data.data))).2⟩ hlen2 hne
    simpa [List.length_set] using hmm
  · have hne : ¬(((⟨t1, t2, (crcBytes (crc16 (entries.map Data.data))).1 ^^^ 2 ^ j⟩ : Data)).data =
          (crcBytes (crc16 (entries.map Data.data))).1 ∧
        ((⟨t3, t4, (crcBytes (crc16 (entries.map Data.data))).2⟩ : Data)).data =
          (crcBytes (crc16 (entries.map Data.data))).2) := by
      rintro ⟨h1, _⟩
      exact xor_two_pow_ne _ j h1
    exact C1mismatch entries _ _ hlen hne
  · have hne : ¬(((⟨t1, t2, (crcBytes (crc16 (entries.map Data.data))).1⟩ : Data)).data =
          (crcBytes (crc16 (entries.map Data.data))).1 ∧
        ((⟨t3, t4, (crcBytes (crc16 (entries.map Data.data))).2 ^^^ 2 ^ j⟩ : Data)).data =
          (crcBytes (crc16 (entries.map Data.data))).2) := by
      rintro ⟨_, h2⟩
      exact xor_two_pow_ne _ j h2
    exact C1mismatch entries _ _ hlen hne

/-- Witness for C1 at the concrete payload `[1, 2, 3, 4]` (first conjunct:
the round trip verifies as matching). -/
theorem C1_checksum_round_trip_witness :
    4 ≤ ([⟨0, 1, 1⟩, ⟨2, 3, 2⟩, ⟨4, 5, 3⟩, ⟨6, 7, 4⟩] : List Data).length ∧
      (check_CRC ((([⟨0, 1, 1⟩, ⟨2, 3, 2⟩, ⟨4, 5, 3⟩, ⟨6, 7, 4⟩] : List Data).length : Int) + 1)
          { mkADU 0 TX "Sc-" Dir.sc with
            data := [⟨0, 1, 1⟩, ⟨2, 3, 2⟩, ⟨4, 5, 3⟩, ⟨6, 7, 4⟩] ++
              [⟨10, 11, (crcBytes (crc16 (([⟨0, 1, 1⟩, ⟨2, 3, 2⟩, ⟨4, 5, 3⟩,
                  ⟨6, 7, 4⟩] : List Data).map Data.data))).1⟩,
               ⟨12, 13, (crcBytes (crc16 (([⟨0, 1, 1⟩, ⟨2, 3, 2⟩, ⟨4, 5, 3⟩,
                  ⟨6, 7, 4⟩] : List Data).map Data.data))).2⟩],
            last_byte_put := (([⟨0, 1, 1⟩, ⟨2, 3, 2⟩, ⟨4, 5, 3⟩,
              ⟨6, 7, 4⟩] : List Data).length : Int) - 1 }).2.2 =
        [(10, 13, "Sc-crc", "CRC correct")] :=
  ⟨by decide,
   (C1_checksum_round_trip [⟨0, 1, 1⟩, ⟨2, 3, 2⟩, ⟨4, 5, 3⟩, ⟨6, 7, 4⟩] 10 11 12 13 0 0
      (by decide) (by decide) (by decide) (by decide)).1⟩

end ModbusPd
